import Mathlib

/-!
# NcaProcess: key derivation, partition assembly and signature checks

A shallow embedding of `programs/nstool/source/NcaProcess.cpp`.  Member variables of the
C++ class become fields of explicit state records, loops become folds over the lists they
iterate, and exceptions become `Except` values.  Library code that the source file calls but
does not contain (AES, SHA-256, RSA, header parsing, the PFS and NPDM readers) is either
modelled from the specification or taken as a parameter.
-/

set_option maxRecDepth 100000

/-- A byte (`byte_t`). -/
abbrev byte_t := Fin 256

namespace crypto.aes

/-- Forward AES substitution box (FIPS-197, figure 7); used by the key schedule. -/
def sbox : List Nat := [
  0x63, 0x7c, 0x77, 0x7b, 0xf2, 0x6b, 0x6f, 0xc5, 0x30, 0x01, 0x67, 0x2b, 0xfe, 0xd7, 0xab, 0x76,
  0xca, 0x82, 0xc9, 0x7d, 0xfa, 0x59, 0x47, 0xf0, 0xad, 0xd4, 0xa2, 0xaf, 0x9c, 0xa4, 0x72, 0xc0,
  0xb7, 0xfd, 0x93, 0x26, 0x36, 0x3f, 0xf7, 0xcc, 0x34, 0xa5, 0xe5, 0xf1, 0x71, 0xd8, 0x31, 0x15,
  0x04, 0xc7, 0x23, 0xc3, 0x18, 0x96, 0x05, 0x9a, 0x07, 0x12, 0x80, 0xe2, 0xeb, 0x27, 0xb2, 0x75,
  0x09, 0x83, 0x2c, 0x1a, 0x1b, 0x6e, 0x5a, 0xa0, 0x52, 0x3b, 0xd6, 0xb3, 0x29, 0xe3, 0x2f, 0x84,
  0x53, 0xd1, 0x00, 0xed, 0x20, 0xfc, 0xb1, 0x5b, 0x6a, 0xcb, 0xbe, 0x39, 0x4a, 0x4c, 0x58, 0xcf,
  0xd0, 0xef, 0xaa, 0xfb, 0x43, 0x4d, 0x33, 0x85, 0x45, 0xf9, 0x02, 0x7f, 0x50, 0x3c, 0x9f, 0xa8,
  0x51, 0xa3, 0x40, 0x8f, 0x92, 0x9d, 0x38, 0xf5, 0xbc, 0xb6, 0xda, 0x21, 0x10, 0xff, 0xf3, 0xd2,
  0xcd, 0x0c, 0x13, 0xec, 0x5f, 0x97, 0x44, 0x17, 0xc4, 0xa7, 0x7e, 0x3d, 0x64, 0x5d, 0x19, 0x73,
  0x60, 0x81, 0x4f, 0xdc, 0x22, 0x2a, 0x90, 0x88, 0x46, 0xee, 0xb8, 0x14, 0xde, 0x5e, 0x0b, 0xdb,
  0xe0, 0x32, 0x3a, 0x0a, 0x49, 0x06, 0x24, 0x5c, 0xc2, 0xd3, 0xac, 0x62, 0x91, 0x95, 0xe4, 0x79,
  0xe7, 0xc8, 0x37, 0x6d, 0x8d, 0xd5, 0x4e, 0xa9, 0x6c, 0x56, 0xf4, 0xea, 0x65, 0x7a, 0xae, 0x08,
  0xba, 0x78, 0x25, 0x2e, 0x1c, 0xa6, 0xb4, 0xc6, 0xe8, 0xdd, 0x74, 0x1f, 0x4b, 0xbd, 0x8b, 0x8a,
  0x70, 0x3e, 0xb5, 0x66, 0x48, 0x03, 0xf6, 0x0e, 0x61, 0x35, 0x57, 0xb9, 0x86, 0xc1, 0x1d, 0x9e,
  0xe1, 0xf8, 0x98, 0x11, 0x69, 0xd9, 0x8e, 0x94, 0x9b, 0x1e, 0x87, 0xe9, 0xce, 0x55, 0x28, 0xdf,
  0x8c, 0xa1, 0x89, 0x0d, 0xbf, 0xe6, 0x42, 0x68, 0x41, 0x99, 0x2d, 0x0f, 0xb0, 0x54, 0xbb, 0x16]

/-- Inverse AES substitution box (FIPS-197, figure 14). -/
def invSbox : List Nat := [
  0x52, 0x09, 0x6a, 0xd5, 0x30, 0x36, 0xa5, 0x38, 0xbf, 0x40, 0xa3, 0x9e, 0x81, 0xf3, 0xd7, 0xfb,
  0x7c, 0xe3, 0x39, 0x82, 0x9b, 0x2f, 0xff, 0x87, 0x34, 0x8e, 0x43, 0x44, 0xc4, 0xde, 0xe9, 0xcb,
  0x54, 0x7b, 0x94, 0x32, 0xa6, 0xc2, 0x23, 0x3d, 0xee, 0x4c, 0x95, 0x0b, 0x42, 0xfa, 0xc3, 0x4e,
  0x08, 0x2e, 0xa1, 0x66, 0x28, 0xd9, 0x24, 0xb2, 0x76, 0x5b, 0xa2, 0x49, 0x6d, 0x8b, 0xd1, 0x25,
  0x72, 0xf8, 0xf6, 0x64, 0x86, 0x68, 0x98, 0x16, 0xd4, 0xa4, 0x5c, 0xcc, 0x5d, 0x65, 0xb6, 0x92,
  0x6c, 0x70, 0x48, 0x50, 0xfd, 0xed, 0xb9, 0xda, 0x5e, 0x15, 0x46, 0x57, 0xa7, 0x8d, 0x9d, 0x84,
  0x90, 0xd8, 0xab, 0x00, 0x8c, 0xbc, 0xd3, 0x0a, 0xf7, 0xe4, 0x58, 0x05, 0xb8, 0xb3, 0x45, 0x06,
  0xd0, 0x2c, 0x1e, 0x8f, 0xca, 0x3f, 0x0f, 0x02, 0xc1, 0xaf, 0xbd, 0x03, 0x01, 0x13, 0x8a, 0x6b,
  0x3a, 0x91, 0x11, 0x41, 0x4f, 0x67, 0xdc, 0xea, 0x97, 0xf2, 0xcf, 0xce, 0xf0, 0xb4, 0xe6, 0x73,
  0x96, 0xac, 0x74, 0x22, 0xe7, 0xad, 0x35, 0x85, 0xe2, 0xf9, 0x37, 0xe8, 0x1c, 0x75, 0xdf, 0x6e,
  0x47, 0xf1, 0x1a, 0x71, 0x1d, 0x29, 0xc5, 0x89, 0x6f, 0xb7, 0x62, 0x0e, 0xaa, 0x18, 0xbe, 0x1b,
  0xfc, 0x56, 0x3e, 0x4b, 0xc6, 0xd2, 0x79, 0x20, 0x9a, 0xdb, 0xc0, 0xfe, 0x78, 0xcd, 0x5a, 0xf4,
  0x1f, 0xdd, 0xa8, 0x33, 0x88, 0x07, 0xc7, 0x31, 0xb1, 0x12, 0x10, 0x59, 0x27, 0x80, 0xec, 0x5f,
  0x60, 0x51, 0x7f, 0xa9, 0x19, 0xb5, 0x4a, 0x0d, 0x2d, 0xe5, 0x7a, 0x9f, 0x93, 0xc9, 0x9c, 0xef,
  0xa0, 0xe0, 0x3b, 0x4d, 0xae, 0x2a, 0xf5, 0xb0, 0xc8, 0xeb, 0xbb, 0x3c, 0x83, 0x53, 0x99, 0x61,
  0x17, 0x2b, 0x04, 0x7e, 0xba, 0x77, 0xd6, 0x26, 0xe1, 0x69, 0x14, 0x63, 0x55, 0x21, 0x0c, 0x7d]

/-- Multiplication by x in GF(2^8) modulo x^8 + x^4 + x^3 + x + 1. -/
def xtime (a : Nat) : Nat := ((a * 2) % 256) ^^^ ((a / 128) * 0x1b)

/-- Multiplication by 0x09 in GF(2^8). -/
def mul9 (a : Nat) : Nat := xtime (xtime (xtime a)) ^^^ a

/-- Multiplication by 0x0b in GF(2^8). -/
def mul11 (a : Nat) : Nat := xtime (xtime (xtime a)) ^^^ xtime a ^^^ a

/-- Multiplication by 0x0d in GF(2^8). -/
def mul13 (a : Nat) : Nat := xtime (xtime (xtime a)) ^^^ xtime (xtime a) ^^^ a

/-- Multiplication by 0x0e in GF(2^8). -/
def mul14 (a : Nat) : Nat := xtime (xtime (xtime a)) ^^^ xtime (xtime a) ^^^ xtime a

/-- AddRoundKey: bytewise exclusive or of state and round key. -/
def addRoundKey (s k : List Nat) : List Nat := List.zipWith (fun a b => a ^^^ b) s k

/-- InvSubBytes. -/
def invSubBytes (s : List Nat) : List Nat := s.map (fun x => invSbox.getD x 0)

/-- InvShiftRows on the column-major 16-byte state: row r moves right by r columns. -/
def invShiftRows (s : List Nat) : List Nat :=
  (List.range 16).map (fun i => s.getD ((i % 4) + 4 * (((i / 4) + 4 - (i % 4)) % 4)) 0)

/-- InvMixColumns, one 4-byte column at a time. -/
def invMixColumns : List Nat → List Nat
  | a0 :: a1 :: a2 :: a3 :: rest =>
      (mul14 a0 ^^^ mul11 a1 ^^^ mul13 a2 ^^^ mul9 a3) ::
      (mul9 a0 ^^^ mul14 a1 ^^^ mul11 a2 ^^^ mul13 a3) ::
      (mul13 a0 ^^^ mul9 a1 ^^^ mul14 a2 ^^^ mul11 a3) ::
      (mul11 a0 ^^^ mul13 a1 ^^^ mul9 a2 ^^^ mul14 a3) :: invMixColumns rest
  | _ => []

/-- Round constants of the AES-128 key schedule. -/
def rcon : List Nat := [0x01, 0x02, 0x04, 0x08, 0x10, 0x20, 0x40, 0x80, 0x1b, 0x36]

/-- One step of the AES-128 key schedule: the round key following `k`. -/
def nextRoundKey (rc : Nat) (k : List Nat) : List Nat :=
  let b := fun i => k.getD i 0
  let s := fun i => sbox.getD (b i) 0
  let w0 := [b 0 ^^^ s 13 ^^^ rc, b 1 ^^^ s 14, b 2 ^^^ s 15, b 3 ^^^ s 12]
  let w1 := addRoundKey ((k.drop 4).take 4) w0
  let w2 := addRoundKey ((k.drop 8).take 4) w1
  let w3 := addRoundKey ((k.drop 12).take 4) w2
  w0 ++ w1 ++ w2 ++ w3

/-- The eleven round keys, last round first: rk10, rk9, ..., rk0. -/
def roundKeysRev (key : List Nat) : List (List Nat) :=
  rcon.foldl (fun acc rc => match acc with
    | k :: _ => nextRoundKey rc k :: acc
    | [] => []) [key]

/-- The inverse rounds 9..0 of the AES-128 inverse cipher. -/
def invRounds (s : List Nat) : List (List Nat) → List Nat
  | [] => s
  | [rk0] => addRoundKey (invSubBytes (invShiftRows s)) rk0
  | rk :: rest => invRounds (invMixColumns (addRoundKey (invSubBytes (invShiftRows s)) rk)) rest

/-- Modelled from the spec: `crypto::aes::AesEcbDecrypt` on a single 16-byte block (the crypto
library is not part of the source file); this is the AES-128 inverse cipher of FIPS-197. -/
def AesEcbDecryptBlock (src key : List Nat) : List Nat :=
  match roundKeysRev key with
  | rk10 :: rest => invRounds (addRoundKey src rk10) rest
  | [] => src

/-- An AES-128 key: the struct `sAes128Key` with the single member `uint8_t key[16]`. -/
structure sAes128Key where
  key : List byte_t
  size_eq : key.length = 16
deriving DecidableEq

/-- Builds a key from the first 16 entries of a byte list (missing entries are 0). -/
def sAes128Key.ofBytes (l : List Nat) : sAes128Key :=
  ⟨(List.range 16).map (fun i => Fin.ofNat (l.getD i 0)), by simp⟩

/-- The all-zero key produced by `memset(key, 0, sizeof(key))`. -/
def sAes128Key.zero : sAes128Key := ⟨List.replicate 16 0, by simp⟩

/-- An AES-XTS key: the struct `sAesXts128Key` with the single member `uint8_t key[2][16]`. -/
structure sAesXts128Key where
  key0 : sAes128Key
  key1 : sAes128Key
deriving DecidableEq

/-- The all-zero XTS key. -/
def sAesXts128Key.zero : sAesXts128Key := ⟨sAes128Key.zero, sAes128Key.zero⟩

end crypto.aes

namespace nx

namespace AesKeygen

/-- Modelled from the spec: `nx::AesKeygen::generateKey(dst, src, src_key)` (libnx, not part of
the source file) is the AES-128-ECB decryption of the 16-byte block `src` under `src_key`. -/
def generateKey (src src_key : crypto.aes.sAes128Key) : crypto.aes.sAes128Key :=
  crypto.aes.sAes128Key.ofBytes
    (crypto.aes.AesEcbDecryptBlock (src.key.map Fin.val) (src_key.key.map Fin.val))

end AesKeygen

namespace nca

/-- Modelled from the spec: `nx::nca::kPartitionNum`, the number of fs-header slots. -/
abbrev kPartitionNum : Nat := 4

/-- Modelled from the spec: `nx::nca::kAesKeyNum`, the number of keys in the encrypted key
area ("encrypted key-area of 4 AES-128 keys"). -/
abbrev kAesKeyNum : Nat := 4

/-- Modelled from the spec: key-area slot of the first AES-XTS key half. -/
abbrev KEY_AESXTS_0 : Nat := 0

/-- Modelled from the spec: key-area slot of the second AES-XTS key half. -/
abbrev KEY_AESXTS_1 : Nat := 1

/-- Modelled from the spec: key-area slot of the AES-CTR key. -/
abbrev KEY_AESCTR : Nat := 2

end nca

/-- A SHA-256 digest (`crypto::sha::sSha256Hash`), kept abstract as a byte list. -/
abbrev sSha256Hash := List byte_t

/-- One entry of `NcaHeader::getPartitions()`. -/
structure sPartition where
  index : Fin nca.kPartitionNum
  offset : Nat
  size : Nat
  hash : sSha256Hash
deriving DecidableEq

/-- A present entry of the 4-slot partition table of the main header. -/
structure sPartitionEntry where
  offset : Nat
  size : Nat
  hash : sSha256Hash
deriving DecidableEq

/-- The parsed main header (`nx::NcaHeader`): the fields that `NcaProcess` reads.  Scalar
fields hold the value of the corresponding header byte or integer. -/
structure NcaHeader where
  formatVersion : Nat
  distributionType : Nat
  contentType : Nat
  keyGeneration : Nat
  kaekIndex : Nat
  contentSize : Nat
  programId : Nat
  contentIndex : Nat
  sdkAddonVersion : Nat
  rightsId : List byte_t
  partitionTable : Fin nca.kPartitionNum → Option sPartitionEntry
  encAesKeys : Fin nca.kAesKeyNum → crypto.aes.sAes128Key

/-- Modelled from the spec: `NcaHeader::hasRightsId()`; an all-zero rights id means that no
ticket is required. -/
def NcaHeader.hasRightsId (hdr : NcaHeader) : Bool := hdr.rightsId.any (fun b => b ≠ 0)

/-- Modelled from the spec: `NcaHeader::getPartitions()`; the list holds the present entries
of the 4-slot partition table in slot order, each carrying its slot number as `index`. -/
def NcaHeader.getPartitions (hdr : NcaHeader) : List sPartition :=
  (List.finRange nca.kPartitionNum).filterMap
    (fun i => (hdr.partitionTable i).map (fun e => ⟨i, e.offset, e.size, e.hash⟩))

namespace NcaUtils

/-- Modelled from the spec: `nx::NcaUtils::getMasterKeyRevisionFromKeyGeneration`; subtract one
from the key generation, with a floor of 0. -/
def getMasterKeyRevisionFromKeyGeneration (key_generation : Nat) : Nat := key_generation - 1

end NcaUtils

end nx

/-- An RSA-2048 public key (`crypto::rsa::sRsa2048Key`), kept abstract as a byte list. -/
abbrev crypto.rsa.sRsa2048Key := List byte_t

/-- The NCA part of the keyset (`sKeyset::nca`); arrays are read by index. -/
structure sKeyset.sNcaData where
  header_sign_key : crypto.rsa.sRsa2048Key
  header_key : crypto.aes.sAesXts128Key
  key_area_key : Nat → Nat → crypto.aes.sAes128Key
  manual_title_key_aesctr : crypto.aes.sAes128Key
  manual_title_key_aesxts : crypto.aes.sAesXts128Key
  manual_body_key_aesctr : crypto.aes.sAes128Key
  manual_body_key_aesxts : crypto.aes.sAesXts128Key

/-- The ticket part of the keyset (`sKeyset::ticket`). -/
structure sKeyset.sTicketData where
  titlekey_kek : Nat → crypto.aes.sAes128Key

/-- The keys of `sKeyset` that body-key derivation reads. -/
structure sKeyset where
  nca : sKeyset.sNcaData
  ticket : sKeyset.sTicketData

/-- Modelled from the spec: the template `sOptional<T>` (declared outside the source file)
is an optional value, held as a value `var` with a flag `isSet`. -/
structure sOptional (T : Type) where
  isSet : Bool
  var : T
deriving DecidableEq

/-- Modelled from the spec: the assignment `opt = value` of `sOptional<T>` stores the value
and marks the optional as set. -/
def sOptional.assign {T : Type} (_ : sOptional T) (v : T) : sOptional T := ⟨true, v⟩

namespace NcaProcess

open crypto.aes

/-- A key-area record (`sKeys::sKeyAreaKey`). -/
structure sKeyAreaKey where
  index : Nat
  decrypted : Bool
  enc : sAes128Key
  dec : sAes128Key
deriving DecidableEq

/-- The derived body keys (`sKeys`, member `mBodyKeys`). -/
structure sKeys where
  keak_list : List sKeyAreaKey
  aes_ctr : sOptional sAes128Key
  aes_xts : sOptional sAesXts128Key
deriving DecidableEq

/-- The local `keak` before its first assignment; its fields are indeterminate in C++ and
are never read before being written, except `dec` of a record that is not decrypted. -/
def keakInit : sKeyAreaKey := ⟨0, false, sAes128Key.zero, sAes128Key.zero⟩

/-- Value of `mBodyKeys` in a freshly constructed `NcaProcess`. -/
def sKeys.init : sKeys := ⟨[], ⟨false, sAes128Key.zero⟩, ⟨false, sAesXts128Key.zero⟩⟩

/-- Body of the first loop of `generateNcaBodyEncryptionKeys` (lines 238-255): the state is
the local `keak` and the list `mBodyKeys.keak_list`. -/
def keyAreaStep (hdr : nx.NcaHeader) (kaek : sAes128Key)
    (st : sKeyAreaKey × List sKeyAreaKey) (i : Fin nx.nca.kAesKeyNum) :
    sKeyAreaKey × List sKeyAreaKey :=
  if hdr.encAesKeys i ≠ sAes128Key.zero then
    let keak1 : sKeyAreaKey := { st.1 with index := i.val, enc := hdr.encAesKeys i }
    let keak2 : sKeyAreaKey :=
      if i.val < 4 ∧ kaek ≠ sAes128Key.zero then
        { keak1 with decrypted := true, dec := nx.AesKeygen.generateKey keak1.enc kaek }
      else
        { keak1 with decrypted := false }
    (keak2, st.2 ++ [keak2])
  else st

/-- Body of the second loop (lines 286-300): the state is the pair of locals
`keak_aesctr_key`, `keak_aesxts_key`. -/
def keakSelectStep (st : sAes128Key × sAesXts128Key) (k : sKeyAreaKey) :
    sAes128Key × sAesXts128Key :=
  if k.index = nx.nca.KEY_AESCTR ∧ k.decrypted = true then (k.dec, st.2)
  else if k.index = nx.nca.KEY_AESXTS_0 ∧ k.decrypted = true then
    (st.1, { st.2 with key0 := k.dec })
  else if k.index = nx.nca.KEY_AESXTS_1 ∧ k.decrypted = true then
    (st.1, { st.2 with key1 := k.dec })
  else st

/-- The method `NcaProcess::generateNcaBodyEncryptionKeys` (lines 224-336), run on the initial
`mBodyKeys`: returns the new value of `mBodyKeys`. -/
def generateNcaBodyEncryptionKeys (hdr : nx.NcaHeader) (keyset : sKeyset) : sKeys :=
  let zero_aesctr_key := sAes128Key.zero
  let zero_aesxts_key := sAesXts128Key.zero
  -- get key data from header
  let masterkey_rev := nx.NcaUtils.getMasterKeyRevisionFromKeyGeneration hdr.keyGeneration
  let keak_index := hdr.kaekIndex
  -- process key area
  let keak_list := ((List.finRange nx.nca.kAesKeyNum).foldl
    (keyAreaStep hdr (keyset.nca.key_area_key keak_index masterkey_rev))
    (keakInit, sKeys.init.keak_list)).2
  -- set flag to indicate that the keys are not available
  let aes_ctr0 : sOptional sAes128Key := { sKeys.init.aes_ctr with isSet := false }
  let aes_xts0 : sOptional sAesXts128Key := { sKeys.init.aes_xts with isSet := false }
  let derived : sOptional sAes128Key × sOptional sAesXts128Key :=
    if hdr.hasRightsId = true then
      -- the key needs to be sourced from a ticket
      if keyset.ticket.titlekey_kek masterkey_rev ≠ zero_aesctr_key then
        let kek := keyset.ticket.titlekey_kek masterkey_rev
        let ctr : sOptional sAes128Key :=
          if keyset.nca.manual_title_key_aesctr ≠ zero_aesctr_key then
            ⟨true, nx.AesKeygen.generateKey keyset.nca.manual_title_key_aesctr kek⟩
          else aes_ctr0
        let xts : sOptional sAesXts128Key :=
          if keyset.nca.manual_title_key_aesxts ≠ zero_aesxts_key then
            ⟨true, ⟨nx.AesKeygen.generateKey keyset.nca.manual_title_key_aesxts.key0 kek,
                    nx.AesKeygen.generateKey keyset.nca.manual_title_key_aesxts.key1 kek⟩⟩
          else aes_xts0
        (ctr, xts)
      else (aes_ctr0, aes_xts0)
    else
      -- otherwise decrypt key area
      let sel := keak_list.foldl keakSelectStep (zero_aesctr_key, zero_aesxts_key)
      let ctr := if sel.1 ≠ zero_aesctr_key then aes_ctr0.assign sel.1 else aes_ctr0
      let xts := if sel.2 ≠ zero_aesxts_key then aes_xts0.assign sel.2 else aes_xts0
      (ctr, xts)
  -- if the keys weren't generated, check if the keys were supplied by the user
  let aes_ctr :=
    if derived.1.isSet = false ∧ keyset.nca.manual_body_key_aesctr ≠ zero_aesctr_key then
      derived.1.assign keyset.nca.manual_body_key_aesctr
    else derived.1
  let aes_xts :=
    if derived.2.isSet = false ∧ keyset.nca.manual_body_key_aesxts ≠ zero_aesxts_key then
      derived.2.assign keyset.nca.manual_body_key_aesxts
    else derived.2
  ⟨keak_list, aes_ctr, aes_xts⟩

end NcaProcess

namespace NcaProcess

open crypto.aes

/-- The key-area key `key_area_key[keak_index][masterkey_rev]` that the header selects. -/
def selectedKaek (hdr : nx.NcaHeader) (keyset : sKeyset) : sAes128Key :=
  keyset.nca.key_area_key hdr.kaekIndex
    (nx.NcaUtils.getMasterKeyRevisionFromKeyGeneration hdr.keyGeneration)

/-- The ticket key `titlekey_kek[masterkey_rev]` that the header selects. -/
def selectedTitlekeyKek (hdr : nx.NcaHeader) (keyset : sKeyset) : sAes128Key :=
  keyset.ticket.titlekey_kek
    (nx.NcaUtils.getMasterKeyRevisionFromKeyGeneration hdr.keyGeneration)

/-- The record that the first loop appends for slot `i`; `d0` is the value that the member
`dec` of the local `keak` held on entry to the loop. -/
def keyAreaRecord (hdr : nx.NcaHeader) (kaek d0 : sAes128Key) (i : Fin nx.nca.kAesKeyNum) :
    sKeyAreaKey :=
  ⟨i.val, decide (kaek ≠ sAes128Key.zero), hdr.encAesKeys i,
    if kaek ≠ sAes128Key.zero then nx.AesKeygen.generateKey (hdr.encAesKeys i) kaek else d0⟩

/-- Closed form of the local `keak_aesxts_key` after the second loop: each half is the
decryption of its key-area slot (0 and 1) when the slot and the key-area key are non-zero,
and zero otherwise. -/
def keakAesXtsKey (hdr : nx.NcaHeader) (kaek : sAes128Key) : sAesXts128Key :=
  ⟨if hdr.encAesKeys 0 ≠ sAes128Key.zero ∧ kaek ≠ sAes128Key.zero then
      nx.AesKeygen.generateKey (hdr.encAesKeys 0) kaek else sAes128Key.zero,
    if hdr.encAesKeys 1 ≠ sAes128Key.zero ∧ kaek ≠ sAes128Key.zero then
      nx.AesKeygen.generateKey (hdr.encAesKeys 1) kaek else sAes128Key.zero⟩

/-! ## Sample inputs -/

namespace Sample

/-- The 128-bit cipher key of FIPS-197 appendix C.1: bytes 00 01 .. 0f. -/
def fipsKey : sAes128Key := sAes128Key.ofBytes (List.range 16)

/-- The ciphertext of FIPS-197 appendix C.1. -/
def fipsCipher : sAes128Key := sAes128Key.ofBytes
  [0x69, 0xc4, 0xe0, 0xd8, 0x6a, 0x7b, 0x04, 0x30, 0xd8, 0xcd, 0xb7, 0x80, 0x70, 0xb4, 0xc5, 0x5a]

/-- The plaintext of FIPS-197 appendix C.1. -/
def fipsPlain : sAes128Key := sAes128Key.ofBytes
  [0x00, 0x11, 0x22, 0x33, 0x44, 0x55, 0x66, 0x77, 0x88, 0x99, 0xaa, 0xbb, 0xcc, 0xdd, 0xee, 0xff]

/-- The AES-128 key of RFC 4493 section 4. -/
def rfcKey : sAes128Key := sAes128Key.ofBytes
  [0x2b, 0x7e, 0x15, 0x16, 0x28, 0xae, 0xd2, 0xa6, 0xab, 0xf7, 0x15, 0x88, 0x09, 0xcf, 0x4f, 0x3c]

/-- The encryption of the all-zero block under `rfcKey` (RFC 4493 section 4). -/
def rfcCipherOfZero : sAes128Key := sAes128Key.ofBytes
  [0x7d, 0xf7, 0x6b, 0x0c, 0x1a, 0xb8, 0x99, 0xb3, 0x3e, 0x42, 0xf0, 0x47, 0xb9, 0x1b, 0x54, 0x6f]

/-- A user-supplied key: sixteen bytes 0xaa. -/
def userKey : sAes128Key := sAes128Key.ofBytes (List.replicate 16 0xaa)

/-- A header of content type Data, key generation 1, key-area index 0, with the given rights
id, no partitions, and an encrypted key area that is zero except for slot 2. -/
def header (rightsId : List byte_t) (slot2 : sAes128Key) : nx.NcaHeader where
  formatVersion := 1
  distributionType := 0
  contentType := 4
  keyGeneration := 1
  kaekIndex := 0
  contentSize := 0xc00
  programId := 0x0100000000001000
  contentIndex := 0
  sdkAddonVersion := 0
  rightsId := rightsId
  partitionTable := fun _ => none
  encAesKeys := fun i => if i = 2 then slot2 else sAes128Key.zero

/-- The all-zero rights id. -/
def noRightsId : List byte_t := List.replicate 16 0

/-- A non-zero rights id. -/
def someRightsId : List byte_t := 1 :: List.replicate 15 0

/-- A keyset whose only key-area key is `kaek` at `[0][0]`, whose only ticket key is
`kek` at `[0]`, with the given manual title key and manual body key for AES-CTR and no
AES-XTS keys. -/
def keyset (kaek kek title body : sAes128Key) : sKeyset where
  nca :=
    { header_sign_key := []
      header_key := sAesXts128Key.zero
      key_area_key := fun i r => if i = 0 ∧ r = 0 then kaek else sAes128Key.zero
      manual_title_key_aesctr := title
      manual_title_key_aesxts := sAesXts128Key.zero
      manual_body_key_aesctr := body
      manual_body_key_aesxts := sAesXts128Key.zero }
  ticket := { titlekey_kek := fun r => if r = 0 then kek else sAes128Key.zero }

/-- A keyset holding nothing but a manual AES-XTS body key. -/
def keysetXts (body : sAesXts128Key) : sKeyset where
  nca :=
    { header_sign_key := []
      header_key := sAesXts128Key.zero
      key_area_key := fun _ _ => sAes128Key.zero
      manual_title_key_aesctr := sAes128Key.zero
      manual_title_key_aesxts := sAesXts128Key.zero
      manual_body_key_aesctr := sAes128Key.zero
      manual_body_key_aesxts := body }
  ticket := { titlekey_kek := fun _ => sAes128Key.zero }

end Sample

end NcaProcess

/-! ## Partition assembly -/

namespace nx

namespace nca

/-- The constant `nx::nca::kDefaultFsHeaderVersion`, declared outside the source file; the
statements below hold for any value, 2 is the value of the platform. -/
def kDefaultFsHeaderVersion : Nat := 2

/-- Format type `FORMAT_ROMFS`: position of "RomFs" in `kFormatTypeStr`. -/
abbrev FORMAT_ROMFS : Nat := 0

/-- Format type `FORMAT_PFS0`: position of "PartitionFs" in `kFormatTypeStr`. -/
abbrev FORMAT_PFS0 : Nat := 1

/-- Hash type `HASH_AUTO`: position of "Auto" in `kHashTypeStr`. -/
abbrev HASH_AUTO : Nat := 0

/-- Hash type `HASH_NONE`: position of "None" in `kHashTypeStr`. -/
abbrev HASH_NONE : Nat := 1

/-- Hash type `HASH_HIERARCHICAL_SHA256`: position of "HierarchicalSha256". -/
abbrev HASH_HIERARCHICAL_SHA256 : Nat := 2

/-- Hash type `HASH_HIERARCHICAL_INTERGRITY`: position of "HierarchicalIntegrity". -/
abbrev HASH_HIERARCHICAL_INTERGRITY : Nat := 3

/-- Encryption type `CRYPT_AUTO`: position of "Auto" in `kEncryptionTypeStr`. -/
abbrev CRYPT_AUTO : Nat := 0

/-- Encryption type `CRYPT_NONE`: position of "None" in `kEncryptionTypeStr`. -/
abbrev CRYPT_NONE : Nat := 1

/-- Encryption type `CRYPT_AESXTS`: position of "AesXts" in `kEncryptionTypeStr`. -/
abbrev CRYPT_AESXTS : Nat := 2

/-- Encryption type `CRYPT_AESCTR`: position of "AesCtr" in `kEncryptionTypeStr`. -/
abbrev CRYPT_AESCTR : Nat := 3

/-- Encryption type `CRYPT_AESCTREX`: position of "AesCtrEx" in `kEncryptionTypeStr`. -/
abbrev CRYPT_AESCTREX : Nat := 4

end nca

/-- One decrypted fs-header slot (`nx::sNcaFsHeader`): the fields that `NcaProcess` reads.
The type fields hold the value of the corresponding header byte. -/
structure sNcaFsHeader where
  version : Nat
  format_type : Nat
  hash_type : Nat
  encryption_type : Nat
  hash_superblock : List byte_t
  aes_ctr_upper : List byte_t
deriving DecidableEq

end nx

/-- An AES counter block (`crypto::aes::sAesIvCtr`), 16 bytes. -/
structure crypto.aes.sAesIvCtr where
  iv : List byte_t
deriving DecidableEq

/-- One layer of a hash tree (`HashTreeMeta::sLayer`). -/
structure HashTreeMeta.sLayer where
  offset : Nat
  size : Nat
  block_size : Nat
deriving DecidableEq

/-- The normalised description of a hash tree (`HashTreeMeta`). -/
structure HashTreeMeta where
  masterHashList : List nx.sSha256Hash
  hashLayerInfo : List HashTreeMeta.sLayer
  dataLayer : HashTreeMeta.sLayer
  alignHashToBlock : Bool
deriving DecidableEq

/-- A default-constructed `HashTreeMeta`. -/
def HashTreeMeta.init : HashTreeMeta := ⟨[], [], ⟨0, 0, 0⟩, false⟩

/-- Readers (`fnd::IFile`) as a tagged sum: a raw file handle and the three stream adapters
that `NcaProcess` stacks on it.  The ownership flag of the adapters is left out, and building
an adapter always succeeds: what an adapter reads or checks while it is built belongs to the
adapter classes, which are not part of the source file. -/
inductive IFile where
  | file (handle : Nat)
  | OffsetAdjustedIFile (inner : IFile) (offset size : Nat)
  | AesCtrWrappedIFile (inner : IFile) (key : crypto.aes.sAes128Key)
      (ctr : crypto.aes.sAesIvCtr)
  | HashTreeWrappedIFile (inner : IFile) (hashMeta : HashTreeMeta)
deriving DecidableEq

/-- Library code used by partition assembly that is not part of the source file, taken as
parameters: SHA-256 of the 0x200 bytes of an fs-header slot, the derivation of the counter
block from the fs header, and the two hash-superblock importers of `HashTreeMeta`.  An
importer parses the 0x138 bytes of the superblock and throws on a malformed one; the result
is the imported meta or the message of the exception. -/
structure PartitionLib where
  Sha256 : nx.sNcaFsHeader → nx.sSha256Hash
  getNcaPartitionAesCtr : nx.sNcaFsHeader → crypto.aes.sAesIvCtr
  importHierarchicalSha256Header : List byte_t → Except String HashTreeMeta
  importHierarchicalIntergityHeader : List byte_t → Except String HashTreeMeta

/-- The string table `kEncryptionTypeStr` (lines 37-44). -/
def kEncryptionTypeStr : List String := ["Auto", "None", "AesXts", "AesCtr", "AesCtrEx"]

/-- The call `error.clear()` on a `std::stringstream`: it resets the error-state flags of the
stream and leaves the buffer as it is. -/
def stringstream_clear (buffer : String) : String := buffer

namespace NcaProcess

open crypto.aes

/-- Per-partition record `sPartitionInfo` (an element of `mPartitions`). -/
structure sPartitionInfo where
  reader : Option IFile
  fail_reason : String
  offset : Nat
  size : Nat
  format_type : Nat
  hash_type : Nat
  enc_type : Nat
  hash_tree_meta : HashTreeMeta
  aes_ctr : sAesIvCtr
deriving DecidableEq

/-- An element of `mPartitions` after the constructor of `NcaProcess`: the reader is null;
the scalar members are indeterminate in C++ and are 0 here. -/
def sPartitionInfo.init : sPartitionInfo :=
  ⟨none, "", 0, 0, 0, 0, 0, HashTreeMeta.init, ⟨[]⟩⟩

/-- Result of the `try` block of one loop iteration (lines 386-437): the buffer of the
string stream `error`, the value of `info.reader`, and the message of the exception that
left the block, if any. -/
structure TryOutcome where
  error : String
  reader : Option IFile
  thrown : Option String
deriving DecidableEq

/-- The `try` block of `generatePartitionConfiguration` (lines 386-437), run with
`info.reader == nullptr`. -/
def createReader (archive : IFile) (mBodyKeys : sKeys) (info : sPartitionInfo)
    (error : String) : TryOutcome :=
  -- filter out unrecognised format types
  if ¬ (info.format_type = nx.nca.FORMAT_PFS0 ∨ info.format_type = nx.nca.FORMAT_ROMFS) then
    let error1 := stringstream_clear error ++
      "FormatType(" ++ toString info.format_type ++ "): UNKNOWN"
    ⟨error1, none, some error1⟩
  else
    -- create reader based on encryption type
    let enc : TryOutcome :=
      if info.enc_type = nx.nca.CRYPT_NONE then
        ⟨error, some (IFile.OffsetAdjustedIFile archive info.offset info.size), none⟩
      else if info.enc_type = nx.nca.CRYPT_AESCTR then
        if mBodyKeys.aes_ctr.isSet = false then
          ⟨error, none, some "AES-CTR Key was not determined"⟩
        else
          ⟨error, some (IFile.OffsetAdjustedIFile
            (IFile.AesCtrWrappedIFile archive mBodyKeys.aes_ctr.var info.aes_ctr)
            info.offset info.size), none⟩
      else if info.enc_type = nx.nca.CRYPT_AESXTS ∨ info.enc_type = nx.nca.CRYPT_AESCTREX then
        let error1 := stringstream_clear error ++
          "EncryptionType(" ++ kEncryptionTypeStr.getD info.enc_type "" ++ "): UNSUPPORTED"
        ⟨error1, none, some error1⟩
      else
        let error1 := stringstream_clear error ++
          "EncryptionType(" ++ toString info.enc_type ++ "): UNKNOWN"
        ⟨error1, none, some error1⟩
    match enc.thrown, enc.reader with
    | none, some tmp =>
      -- filter out unrecognised hash types, and hash based readers
      if info.hash_type = nx.nca.HASH_HIERARCHICAL_SHA256 ∨
          info.hash_type = nx.nca.HASH_HIERARCHICAL_INTERGRITY then
        ⟨enc.error, some (IFile.HashTreeWrappedIFile tmp info.hash_tree_meta), none⟩
      else if info.hash_type ≠ nx.nca.HASH_NONE then
        let error1 := stringstream_clear enc.error ++
          "HashType(" ++ toString info.hash_type ++ "): UNKNOWN"
        ⟨error1, some tmp, some error1⟩
      else enc
    | _, _ => enc

/-- State of the loop of `generatePartitionConfiguration`: the buffer of the local string
stream `error` and the member array `mPartitions`. -/
structure PartitionLoopState where
  error : String
  mPartitions : Fin nx.nca.kPartitionNum → sPartitionInfo

/-- One iteration of the loop of `generatePartitionConfiguration` (lines 343-445); an
exception that leaves the method is an `Except.error` carrying its message. -/
def configurePartition (lib : PartitionLib) (archive : IFile)
    (fs_headers : Fin nx.nca.kPartitionNum → nx.sNcaFsHeader) (mBodyKeys : sKeys)
    (st : PartitionLoopState) (partition : nx.sPartition) : Except String PartitionLoopState :=
  -- get reference to relevant structures
  let fs_header := fs_headers partition.index
  let info := st.mPartitions partition.index
  -- validate header hash
  let calc_hash := lib.Sha256 fs_header
  if calc_hash ≠ partition.hash then
    Except.error (stringstream_clear st.error ++
      "NCA FS Header [" ++ toString partition.index.val ++ "] Hash: FAIL \n")
  else if fs_header.version ≠ nx.nca.kDefaultFsHeaderVersion then
    Except.error (stringstream_clear st.error ++
      "NCA FS Header [" ++ toString partition.index.val ++ "] Version(" ++
      toString fs_header.version ++ "): UNSUPPORTED")
  else
    -- setup AES-CTR and save partition config
    let info1 : sPartitionInfo :=
      { info with
        aes_ctr := lib.getNcaPartitionAesCtr fs_header
        reader := none
        offset := partition.offset
        size := partition.size
        format_type := fs_header.format_type
        hash_type := fs_header.hash_type
        enc_type := fs_header.encryption_type }
    -- import the hash superblock (lines 379-382, before the try block)
    let imported : Except String sPartitionInfo :=
      if info1.hash_type = nx.nca.HASH_HIERARCHICAL_SHA256 then
        match lib.importHierarchicalSha256Header fs_header.hash_superblock with
        | Except.ok hashMeta => Except.ok { info1 with hash_tree_meta := hashMeta }
        | Except.error e => Except.error e
      else if info1.hash_type = nx.nca.HASH_HIERARCHICAL_INTERGRITY then
        match lib.importHierarchicalIntergityHeader fs_header.hash_superblock with
        | Except.ok hashMeta => Except.ok { info1 with hash_tree_meta := hashMeta }
        | Except.error e => Except.error e
      else Except.ok info1
    match imported with
    | Except.error e =>
      -- no handler encloses the import: the exception leaves the method
      Except.error e
    | Except.ok info2 =>
      -- create reader
      let r := createReader archive mBodyKeys info2 st.error
      let info3 : sPartitionInfo :=
        match r.thrown with
        | some e => { info2 with fail_reason := e, reader := none }
        | none => { info2 with reader := r.reader }
      Except.ok ⟨r.error, Function.update st.mPartitions partition.index info3⟩

/-- The loop of `generatePartitionConfiguration` over the partition list. -/
def configurePartitions (lib : PartitionLib) (archive : IFile)
    (fs_headers : Fin nx.nca.kPartitionNum → nx.sNcaFsHeader) (mBodyKeys : sKeys) :
    List nx.sPartition → PartitionLoopState → Except String PartitionLoopState
  | [], st => Except.ok st
  | partition :: rest, st =>
    match configurePartition lib archive fs_headers mBodyKeys st partition with
    | Except.error e => Except.error e
    | Except.ok st1 => configurePartitions lib archive fs_headers mBodyKeys rest st1

/-- The method `NcaProcess::generatePartitionConfiguration` (lines 338-446): `archive` is
`mReader`, `fs_headers` is `mHdrBlock.fs_header`; the result is the new value of
`mPartitions`, or the message of the exception that left the method. -/
def generatePartitionConfiguration (lib : PartitionLib) (archive : IFile) (mHdr : nx.NcaHeader)
    (fs_headers : Fin nx.nca.kPartitionNum → nx.sNcaFsHeader) (mBodyKeys : sKeys)
    (mPartitions : Fin nx.nca.kPartitionNum → sPartitionInfo) :
    Except String (Fin nx.nca.kPartitionNum → sPartitionInfo) :=
  match configurePartitions lib archive fs_headers mBodyKeys mHdr.getPartitions
      ⟨"", mPartitions⟩ with
  | Except.error e => Except.error e
  | Except.ok st => Except.ok st.mPartitions

end NcaProcess

namespace NcaProcess

open crypto.aes

/-- The hash-tree meta of a slot after lines 379-382: the imported superblock for the two
hierarchical hash types, the previous meta `current` for any other hash type; or the message
of the exception thrown by the importer. -/
def importSuperblock (lib : PartitionLib) (fs_header : nx.sNcaFsHeader)
    (current : HashTreeMeta) : Except String HashTreeMeta :=
  if fs_header.hash_type = nx.nca.HASH_HIERARCHICAL_SHA256 then
    lib.importHierarchicalSha256Header fs_header.hash_superblock
  else if fs_header.hash_type = nx.nca.HASH_HIERARCHICAL_INTERGRITY then
    lib.importHierarchicalIntergityHeader fs_header.hash_superblock
  else Except.ok current

/-- The importer that lines 379-382 call for this fs header, if any, does not throw. -/
def SuperblockImports (lib : PartitionLib) (fs_header : nx.sNcaFsHeader) : Prop :=
  (fs_header.hash_type = nx.nca.HASH_HIERARCHICAL_SHA256 →
    (lib.importHierarchicalSha256Header fs_header.hash_superblock).isOk = true) ∧
  (fs_header.hash_type = nx.nca.HASH_HIERARCHICAL_INTERGRITY →
    (lib.importHierarchicalIntergityHeader fs_header.hash_superblock).isOk = true)

/-- The partition configuration saved at lines 370-382 for `partition`, written over the
previous contents `info` of its slot, when the import of the superblock does not throw. -/
def savedConfig (lib : PartitionLib) (fs_header : nx.sNcaFsHeader) (partition : nx.sPartition)
    (info : sPartitionInfo) : sPartitionInfo :=
  { info with
    aes_ctr := lib.getNcaPartitionAesCtr fs_header
    reader := none
    offset := partition.offset
    size := partition.size
    format_type := fs_header.format_type
    hash_type := fs_header.hash_type
    enc_type := fs_header.encryption_type
    hash_tree_meta :=
      match importSuperblock lib fs_header info.hash_tree_meta with
      | Except.ok hashMeta => hashMeta
      | Except.error _ => info.hash_tree_meta }

/-- The contents of the slot of `partition` after its loop iteration, when the fs-header
checks pass and the import of the superblock does not throw: `error` is the buffer of the string stream on entry to the iteration. -/
def configuredInfo (lib : PartitionLib) (archive : IFile) (fs_header : nx.sNcaFsHeader)
    (mBodyKeys : sKeys) (partition : nx.sPartition) (info : sPartitionInfo) (error : String) :
    sPartitionInfo :=
  let info2 := savedConfig lib fs_header partition info
  match (createReader archive mBodyKeys info2 error).thrown with
  | some e => { info2 with fail_reason := e, reader := none }
  | none => { info2 with reader := (createReader archive mBodyKeys info2 error).reader }

/-- The inner reader of a partition, by encryption type: an offset slice of the archive for
`CRYPT_NONE`, an offset slice of the AES-CTR stream for `CRYPT_AESCTR` with a body key. -/
def encryptionReader (archive : IFile) (mBodyKeys : sKeys) (ctr : sAesIvCtr)
    (offset size enc_type : Nat) : Option IFile :=
  if enc_type = nx.nca.CRYPT_NONE then
    some (IFile.OffsetAdjustedIFile archive offset size)
  else if enc_type = nx.nca.CRYPT_AESCTR ∧ mBodyKeys.aes_ctr.isSet = true then
    some (IFile.OffsetAdjustedIFile
      (IFile.AesCtrWrappedIFile archive mBodyKeys.aes_ctr.var ctr) offset size)
  else none

/-- The fs-header checks of lines 351-367 pass for `partition`. -/
def FsHeaderValid (lib : PartitionLib)
    (fs_headers : Fin nx.nca.kPartitionNum → nx.sNcaFsHeader) (partition : nx.sPartition) :
    Prop :=
  lib.Sha256 (fs_headers partition.index) = partition.hash ∧
    (fs_headers partition.index).version = nx.nca.kDefaultFsHeaderVersion

/-- The partition-level failures: an unknown format type, AES-CTR encryption without a body
AES-CTR key, AES-XTS or AES-CTR-EX encryption, an unknown encryption type, or an unknown
hash type. -/
def PartitionFails (fs_header : nx.sNcaFsHeader) (mBodyKeys : sKeys) : Prop :=
  ¬ (fs_header.format_type = nx.nca.FORMAT_PFS0 ∨
      fs_header.format_type = nx.nca.FORMAT_ROMFS) ∨
  (fs_header.encryption_type = nx.nca.CRYPT_AESCTR ∧ mBodyKeys.aes_ctr.isSet = false) ∨
  fs_header.encryption_type = nx.nca.CRYPT_AESXTS ∨
  fs_header.encryption_type = nx.nca.CRYPT_AESCTREX ∨
  ¬ (fs_header.encryption_type = nx.nca.CRYPT_NONE ∨
      fs_header.encryption_type = nx.nca.CRYPT_AESXTS ∨
      fs_header.encryption_type = nx.nca.CRYPT_AESCTR ∨
      fs_header.encryption_type = nx.nca.CRYPT_AESCTREX) ∨
  ¬ (fs_header.hash_type = nx.nca.HASH_NONE ∨
      fs_header.hash_type = nx.nca.HASH_HIERARCHICAL_SHA256 ∨
      fs_header.hash_type = nx.nca.HASH_HIERARCHICAL_INTERGRITY)

/-- The header `hdr` with the partition-table entry of slot `i` removed. -/
def withoutPartition (hdr : nx.NcaHeader) (i : Fin nx.nca.kPartitionNum) : nx.NcaHeader :=
  { hdr with partitionTable := Function.update hdr.partitionTable i none }

/-- The message of the exception that left a call, if one did. -/
def thrownBy {α : Type} (r : Except String α) : Option String :=
  match r with
  | Except.ok _ => none
  | Except.error e => some e

/-- The slot `i` of `mPartitions` after a call that returned normally. -/
def slotAfter (r : Except String (Fin nx.nca.kPartitionNum → sPartitionInfo))
    (i : Fin nx.nca.kPartitionNum) : Option sPartitionInfo :=
  match r with
  | Except.ok mPartitions => some (mPartitions i)
  | Except.error _ => none

end NcaProcess

namespace NcaProcess.Sample

open crypto.aes

/-- The magic "IVFC" that opens a HierarchicalIntegrity superblock. -/
def ivfcMagic : List byte_t := [0x49, 0x56, 0x46, 0x43]

/-- Stand-ins for the library functions of partition assembly: the digest of an fs header
lists its four scalar fields and the length of its superblock, and the counter block is the
IV seed followed by eight zero bytes.  The HierarchicalSha256 importer throws on a
superblock of fewer than 32 bytes and keeps the first 32 bytes as the only master hash; the
HierarchicalIntegrity importer throws unless the superblock opens with "IVFC" and keeps the
32 bytes after the magic as the only master hash. -/
def partitionLib : PartitionLib where
  Sha256 := fun h => [Fin.ofNat h.version, Fin.ofNat h.format_type, Fin.ofNat h.hash_type,
    Fin.ofNat h.encryption_type, Fin.ofNat h.hash_superblock.length]
  getNcaPartitionAesCtr := fun h => ⟨h.aes_ctr_upper ++ List.replicate 8 0⟩
  importHierarchicalSha256Header := fun sb =>
    if sb.length < 32 then Except.error "HierarchicalSha256 header: too small"
    else Except.ok ⟨[sb.take 32], [⟨0, 0, 0⟩], ⟨0, 0, 0⟩, true⟩
  importHierarchicalIntergityHeader := fun sb =>
    if sb.take 4 = ivfcMagic then Except.ok ⟨[(sb.drop 4).take 32], [], ⟨0, 0, 0⟩, false⟩
    else Except.error "HierarchicalIntegrity header: invalid struct magic"

/-- An fs header of the default version with the given format, hash and encryption types. -/
def fsHeader (format_type hash_type encryption_type : Nat) : nx.sNcaFsHeader :=
  ⟨nx.nca.kDefaultFsHeaderVersion, format_type, hash_type, encryption_type, [],
    List.replicate 8 0⟩

/-- Four fs-header slots: `h0` in slot 0 and `h1` in the other slots. -/
def fsHeaders (h0 h1 : nx.sNcaFsHeader) : Fin nx.nca.kPartitionNum → nx.sNcaFsHeader :=
  fun i => if i = 0 then h0 else h1

/-- The partition-table entry at `offset`, 0x200 bytes long, carrying the digest of `h`. -/
def entry (offset : Nat) (h : nx.sNcaFsHeader) : nx.sPartitionEntry :=
  ⟨offset, 0x200, partitionLib.Sha256 h⟩

/-- A header of the given content type whose partition table has the entries `e0` and `e1`
in slots 0 and 1 and no other entry. -/
def partitionHeader (contentType : Nat) (e0 e1 : Option nx.sPartitionEntry) : nx.NcaHeader :=
  { header noRightsId sAes128Key.zero with
    contentType := contentType
    partitionTable := fun i => if i = 0 then e0 else if i = 1 then e1 else none }

/-- The archive file. -/
def archive : IFile := IFile.file 0

/-- The array `mPartitions` of a freshly constructed `NcaProcess`. -/
def mPartitions0 : Fin nx.nca.kPartitionNum → sPartitionInfo := fun _ => sPartitionInfo.init

/-- Slot 0: unknown format type 5; slot 1: PartitionFs with AES-XTS encryption. -/
def fsUnknownThenXts : Fin nx.nca.kPartitionNum → nx.sNcaFsHeader :=
  fsHeaders (fsHeader 5 nx.nca.HASH_NONE nx.nca.CRYPT_NONE)
    (fsHeader nx.nca.FORMAT_PFS0 nx.nca.HASH_NONE nx.nca.CRYPT_AESXTS)

/-- Slot 0: plain PartitionFs; slot 1: PartitionFs with AES-XTS encryption. -/
def fsPlainThenXts : Fin nx.nca.kPartitionNum → nx.sNcaFsHeader :=
  fsHeaders (fsHeader nx.nca.FORMAT_PFS0 nx.nca.HASH_NONE nx.nca.CRYPT_NONE)
    (fsHeader nx.nca.FORMAT_PFS0 nx.nca.HASH_NONE nx.nca.CRYPT_AESXTS)

/-- The header whose two partition entries match the digests of the slots of `fs`. -/
def headerFor (contentType : Nat) (fs : Fin nx.nca.kPartitionNum → nx.sNcaFsHeader) :
    nx.NcaHeader :=
  partitionHeader contentType (some (entry 0xc00 (fs 0))) (some (entry 0xe00 (fs 1)))

/-- Slot 0: plain PartitionFs with hash type HierarchicalIntegrity and an empty hash
superblock, which lacks the magic; slot 1: PartitionFs with AES-XTS encryption. -/
def fsBadSuperblock : Fin nx.nca.kPartitionNum → nx.sNcaFsHeader :=
  fsHeaders
    (fsHeader nx.nca.FORMAT_PFS0 nx.nca.HASH_HIERARCHICAL_INTERGRITY nx.nca.CRYPT_NONE)
    (fsHeader nx.nca.FORMAT_PFS0 nx.nca.HASH_NONE nx.nca.CRYPT_AESXTS)

/-- Slot 0: plain PartitionFs with hash type HierarchicalIntegrity and a superblock that
opens with "IVFC"; slot 1: PartitionFs with AES-XTS encryption. -/
def fsIntegrityThenXts : Fin nx.nca.kPartitionNum → nx.sNcaFsHeader :=
  fsHeaders
    ⟨nx.nca.kDefaultFsHeaderVersion, nx.nca.FORMAT_PFS0, nx.nca.HASH_HIERARCHICAL_INTERGRITY,
      nx.nca.CRYPT_NONE, ivfcMagic ++ List.replicate 32 7, List.replicate 8 0⟩
    (fsHeader nx.nca.FORMAT_PFS0 nx.nca.HASH_NONE nx.nca.CRYPT_AESXTS)

end NcaProcess.Sample

/-! ## Signature validation -/

/-- The enumeration `CliOutputType`, declared outside the source file: its members from the
least to the most verbose, `OUTPUT_MINIMAL` first. -/
inductive CliOutputType where
  | OUTPUT_MINIMAL
  | OUTPUT_NORMAL
  | OUTPUT_VERBOSE
deriving DecidableEq

/-- The integer value of an enumerator, which is what `>=` compares in C++. -/
def CliOutputType.toNat : CliOutputType → Nat
  | OUTPUT_MINIMAL => 0
  | OUTPUT_NORMAL => 1
  | OUTPUT_VERBOSE => 2

/-- One item written to standard output: a `printf` (or hex dump) of `NcaProcess` itself, or
the lines printed by a collaborator while it runs. -/
inductive OutputItem where
  | printf (text : String)
  | collaborator (name : String) (lines : List String)
deriving DecidableEq

/-- How a method ends: it returns, an `fnd::Exception` leaves it, or it reads a table out of
bounds, after which the behaviour of the program is undefined. -/
inductive Outcome where
  | returned
  | threw (message : String)
  | undefined (what : String)
deriving DecidableEq

/-- The observable result of running a method: what it printed and how it ended. -/
structure Run where
  output : List OutputItem
  outcome : Outcome
deriving DecidableEq

/-- Runs `second` after `first` when `first` returned; otherwise the run ends with
`first`. -/
def Run.andThen (first second : Run) : Run :=
  match first.outcome with
  | Outcome.returned => ⟨first.output ++ second.output, second.outcome⟩
  | _ => first

/-- A file entry of a PFS header (`nx::PfsHeader::sFile`). -/
structure nx.PfsHeader.sFile where
  name : String
  offset : Nat
  size : Nat
deriving DecidableEq

/-- The settings of a `PfsProcess` or `RomfsProcess` before `process()` is called. -/
structure FsProcessConfig where
  file : IFile
  cliOutputMode : CliOutputType
  listFs : Bool
  mountPointName : Option String
  extractPath : Option String
deriving DecidableEq

/-- What `PfsProcess::process()` did: the lines it printed, the message of the exception
that left it (if any), and the file list of the PFS header it read. -/
structure PfsProcessResult where
  output : List String
  exception : Option String
  fileList : List nx.PfsHeader.sFile

/-- What `RomfsProcess::process()` did. -/
structure RomfsProcessResult where
  output : List String
  exception : Option String

/-- The settings of an `NpdmProcess` before `process()` is called. -/
structure NpdmProcessConfig where
  file : IFile
  offset : Nat
  size : Nat
  cliOutputMode : CliOutputType
deriving DecidableEq

/-- What `NpdmProcess::process()` did: output, exception, and the key returned by
`getNpdmBinary().getAcid().getNcaHeader2RsaKey()`. -/
structure NpdmProcessResult where
  output : List String
  exception : Option String
  ncaHeader2RsaKey : crypto.rsa.sRsa2048Key

/-- The collaborators of `NcaProcess` that are not part of the source file, taken as
parameters: RSA-PSS verification (0 means valid), the PFS, RomFS and NPDM processors, the
hex dump of `fnd::SimpleTextOutput`, and the counter increment of the AES library. -/
structure Collaborators where
  rsaVerify : crypto.rsa.sRsa2048Key → nx.sSha256Hash → List byte_t → Int
  pfsProcess : FsProcessConfig → PfsProcessResult
  romfsProcess : FsProcessConfig → RomfsProcessResult
  npdmProcess : NpdmProcessConfig → NpdmProcessResult
  hexDump : List byte_t → String
  AesIncrementCounter : List byte_t → Nat → List byte_t

/-- Content type `TYPE_PROGRAM`: position of "Program" in `kContentTypeStr`. -/
abbrev nx.nca.TYPE_PROGRAM : Nat := 0

/-- Partition `PARTITION_CODE`: position of "code" in `kProgramPartitionNameStr`. -/
abbrev nx.nca.PARTITION_CODE : Fin nx.nca.kPartitionNum := 0

namespace NcaProcess

/-- Modelled from the spec: the member constant `kNpdmExefsPath`, the name of the manifest
inside the ExeFs. -/
def kNpdmExefsPath : String := "main.npdm"

/-- Warning printed at line 455. -/
def warnMainSignature : String := "[WARNING] NCA Header Main Signature: FAIL \n"

/-- Warning printed at line 484. -/
def warnAcidSignature : String := "[WARNING] NCA Header ACID Signature: FAIL \n"

/-- Warning printed at line 492. -/
def warnNpdmMissing : String :=
  "[WARNING] NCA Header ACID Signature: FAIL (\"" ++ kNpdmExefsPath ++
    "\" not present in ExeFs)\n"

/-- Warning printed at line 501. -/
def warnExefsUnreadable : String :=
  "[WARNING] NCA Header ACID Signature: FAIL (ExeFs unreadable)\n"

/-- Warning printed at line 508. -/
def warnNoExefs : String :=
  "[WARNING] NCA Header ACID Signature: FAIL (No ExeFs partition)\n"

/-- A warning guarded by `if (mCliOutputType >= OUTPUT_MINIMAL)`. -/
def printWarning (mCliOutputType : CliOutputType) (text : String) : List OutputItem :=
  if CliOutputType.OUTPUT_MINIMAL.toNat ≤ mCliOutputType.toNat then [OutputItem.printf text]
  else []

/-- The settings of the local `exefs` of `validateNcaSignatures` (lines 465-467). -/
def exefsConfig (reader : IFile) : FsProcessConfig :=
  ⟨reader, CliOutputType.OUTPUT_MINIMAL, false, none, none⟩

/-- The settings of the local `npdm` of `validateNcaSignatures` (lines 475-477). -/
def npdmConfig (reader : IFile) (file : nx.PfsHeader.sFile) : NpdmProcessConfig :=
  ⟨reader, file.offset, file.size, CliOutputType.OUTPUT_MINIMAL⟩

/-- The entry found by `getFileList()[getFileList().getIndexOf(kNpdmExefsPath)]`, present
exactly when `hasElement(kNpdmExefsPath)` holds. -/
def findNpdm (fileList : List nx.PfsHeader.sFile) : Option nx.PfsHeader.sFile :=
  fileList.find? (fun f => f.name = kNpdmExefsPath)

/-- The decrypted header block (`nx::sNcaHeaderBlock`, member `mHdrBlock`): the two
signatures, the bytes of the main header, and the four fs-header slots. -/
structure sNcaHeaderBlock where
  signature_main : List byte_t
  signature_acid : List byte_t
  header : List byte_t
  fs_header : Fin nx.nca.kPartitionNum → nx.sNcaFsHeader

/-- An element of `mPartitionPath`. -/
structure sExtract where
  path : String
  doExtract : Bool
deriving DecidableEq

/-- The member variables of the class `NcaProcess`. -/
structure State where
  mReader : Option IFile
  mKeyset : sKeyset
  mCliOutputType : CliOutputType
  mVerify : Bool
  mListFs : Bool
  mPartitionPath : Fin nx.nca.kPartitionNum → sExtract
  mHdrBlock : sNcaHeaderBlock
  mHdrHash : nx.sSha256Hash
  mHdr : nx.NcaHeader
  mBodyKeys : sKeys
  mPartitions : Fin nx.nca.kPartitionNum → sPartitionInfo

/-- The method `NcaProcess::validateNcaSignatures` (lines 448-511). -/
def validateNcaSignatures (lib : Collaborators) (self : State) : Run :=
  -- validate signature[0]
  let out0 : List OutputItem :=
    if lib.rsaVerify self.mKeyset.nca.header_sign_key self.mHdrHash
        self.mHdrBlock.signature_main ≠ 0 then
      printWarning self.mCliOutputType warnMainSignature
    else []
  -- validate signature[1]
  if self.mHdr.contentType = nx.nca.TYPE_PROGRAM then
    if (self.mPartitions nx.nca.PARTITION_CODE).format_type = nx.nca.FORMAT_PFS0 then
      match (self.mPartitions nx.nca.PARTITION_CODE).reader with
      | some reader =>
        let exefs := lib.pfsProcess (exefsConfig reader)
        let out1 := out0 ++ [OutputItem.collaborator "PfsProcess" exefs.output]
        match exefs.exception with
        | some e => ⟨out1, Outcome.threw e⟩
        | none =>
          -- open main.npdm
          match findNpdm exefs.fileList with
          | some file =>
            let npdm := lib.npdmProcess (npdmConfig reader file)
            let out2 := out1 ++ [OutputItem.collaborator "NpdmProcess" npdm.output]
            match npdm.exception with
            | some e => ⟨out2, Outcome.threw e⟩
            | none =>
              if lib.rsaVerify npdm.ncaHeader2RsaKey self.mHdrHash
                  self.mHdrBlock.signature_acid ≠ 0 then
                ⟨out2 ++ printWarning self.mCliOutputType warnAcidSignature, Outcome.returned⟩
              else ⟨out2, Outcome.returned⟩
          | none =>
            ⟨out1 ++ printWarning self.mCliOutputType warnNpdmMissing, Outcome.returned⟩
      | none =>
        ⟨out0 ++ printWarning self.mCliOutputType warnExefsUnreadable, Outcome.returned⟩
    else ⟨out0 ++ printWarning self.mCliOutputType warnNoExefs, Outcome.returned⟩
  else ⟨out0, Outcome.returned⟩

end NcaProcess

/-! ## Display, partition processing and the driver -/

/-- The string table `kFormatVersionStr` (lines 15-19). -/
def kFormatVersionStr : List String := ["NCA2", "NCA3"]

/-- The string table `kDistributionTypeStr` (lines 21-25). -/
def kDistributionTypeStr : List String := ["Download", "Game Card"]

/-- The string table `kContentTypeStr` (lines 27-35). -/
def kContentTypeStr : List String :=
  ["Program", "Meta", "Control", "Manual", "Data", "PublicData"]

/-- The string table `kHashTypeStr` (lines 46-52). -/
def kHashTypeStr : List String :=
  ["Auto", "None", "HierarchicalSha256", "HierarchicalIntegrity"]

/-- The string table `kFormatTypeStr` (lines 54-58). -/
def kFormatTypeStr : List String := ["RomFs", "PartitionFs"]

/-- The string table `kKaekIndexStr` (lines 60-65). -/
def kKaekIndexStr : List String := ["Application", "Ocean", "System"]

/-- The string table `kContentTypeForMountStr` (lines 67-75). -/
def kContentTypeForMountStr : List String :=
  ["program", "meta", "control", "manual", "data", "publicdata"]

/-- The string table `kProgramPartitionNameStr` (lines 77-82). -/
def kProgramPartitionNameStr : List String := ["code", "data", "logo"]

/-- Reads entry `i` of a table or list; an index past the end yields the name of the
table, and the run that made the access ends as `Outcome.undefined`. -/
def readAt {α : Type} (name : String) (table : List α) (i : Nat) : Except String α :=
  match table[i]? with
  | some s => Except.ok s
  | none => Except.error name

/-- The conversion `%x`: lower-case hexadecimal digits. -/
def fmtHex (n : Nat) : String := String.mk (Nat.toDigits 16 n)

/-- Pads `s` on the left with `c` up to `width` characters. -/
def padLeft (c : Char) (width : Nat) (s : String) : String :=
  String.mk (List.replicate (width - s.length) c) ++ s

/-- Library code of header loading that is not part of the source file, taken as
parameters: reading and decrypting the header block (a failed read throws), SHA-256 of the
main header, and `NcaHeader::importBinary`, which throws on a malformed header. -/
structure HeaderLib where
  loadHeaderBlock : IFile → crypto.aes.sAesXts128Key → Except String NcaProcess.sNcaHeaderBlock
  Sha256 : List byte_t → nx.sSha256Hash
  importBinary : List byte_t → Except String nx.NcaHeader

namespace NcaProcess

/-- The rows of the key-area table printed by `displayHeader` (lines 536-550). -/
def displayKeyArea (keak_list : List sKeyAreaKey) : List OutputItem :=
  keak_list.map (fun k => OutputItem.printf
    ("    | " ++ padLeft ' ' 3 (toString k.index) ++ " | " ++
      String.join (k.enc.key.map (fun b => padLeft '0' 2 (fmtHex b.val))) ++ " | " ++
      (if k.decrypted = true then
        String.join (k.dec.key.map (fun b => padLeft '0' 2 (fmtHex b.val)))
      else "<unable to decrypt>             ") ++ " |\n"))

/-- The three lines that `displayHeader` prints for a layer of a hash tree. -/
def displayLayer (l : HashTreeMeta.sLayer) (withBlockSize : Bool) : List OutputItem :=
  [OutputItem.printf ("          Offset:          0x" ++ fmtHex l.offset ++ "\n"),
    OutputItem.printf ("          Size:            0x" ++ fmtHex l.size ++ "\n")] ++
  (if withBlockSize = true then
    [OutputItem.printf ("          BlockSize:       0x" ++ fmtHex l.block_size ++ "\n")]
  else [])

/-- The hash-tree part of a partition block of `displayHeader` (lines 585-624). -/
def displayHashTree (lib : Collaborators) (info : sPartitionInfo) :
    Except String (List OutputItem) :=
  let hash_hdr := info.hash_tree_meta
  if info.hash_type = nx.nca.HASH_HIERARCHICAL_INTERGRITY then
    Except.ok
      ([OutputItem.printf "      HierarchicalIntegrity Header:\n"] ++
        (hash_hdr.hashLayerInfo.enum.map (fun jl =>
          [OutputItem.printf ("        Hash Layer " ++ toString jl.1 ++ ":\n")] ++
            displayLayer jl.2 true)).flatten ++
        [OutputItem.printf "        Data Layer:\n"] ++ displayLayer hash_hdr.dataLayer true ++
        (hash_hdr.masterHashList.enum.map (fun jh =>
          [OutputItem.printf ("        Master Hash " ++ toString jh.1 ++ ":     "),
            OutputItem.printf (lib.hexDump jh.2)])).flatten)
  else if info.hash_type = nx.nca.HASH_HIERARCHICAL_SHA256 then do
    let master ← readAt "getMasterHashList()" hash_hdr.masterHashList 0
    let layer ← readAt "getHashLayerInfo()" hash_hdr.hashLayerInfo 0
    Except.ok
      ([OutputItem.printf "      HierarchicalSha256 Header:\n",
          OutputItem.printf "        Master Hash:       ",
          OutputItem.printf (lib.hexDump master),
          OutputItem.printf ("        HashBlockSize:     0x" ++
            fmtHex hash_hdr.dataLayer.block_size ++ "\n"),
          OutputItem.printf "        Hash Layer:\n"] ++ displayLayer layer false ++
        [OutputItem.printf "        Data Layer:\n"] ++ displayLayer hash_hdr.dataLayer false)
  else Except.ok []

/-- One iteration of the partition loop of `displayHeader` (lines 568-630): the block printed
for list position `i`, which shows the slot `mPartitions[i]`. -/
def displayPartition (lib : Collaborators) (self : State) (i : Nat) :
    Except String (List OutputItem) := do
  let info ← readAt "mPartitions" (List.ofFn self.mPartitions) i
  let format ← readAt "kFormatTypeStr" kFormatTypeStr info.format_type
  let hash ← readAt "kHashTypeStr" kHashTypeStr info.hash_type
  let enc ← readAt "kEncryptionTypeStr" kEncryptionTypeStr info.enc_type
  let tree ← displayHashTree lib info
  Except.ok
    ([OutputItem.printf ("    " ++ toString i ++ ":\n"),
        OutputItem.printf ("      Offset:      0x" ++ fmtHex info.offset ++ "\n"),
        OutputItem.printf ("      Size:        0x" ++ fmtHex info.size ++ "\n"),
        OutputItem.printf ("      Format Type: " ++ format ++ "\n"),
        OutputItem.printf ("      Hash Type:   " ++ hash ++ "\n"),
        OutputItem.printf ("      Enc. Type:   " ++ enc ++ "\n")] ++
      (if info.enc_type = nx.nca.CRYPT_AESCTR then
        [OutputItem.printf "        AES-CTR:     ",
          OutputItem.printf
            (lib.hexDump (lib.AesIncrementCounter info.aes_ctr.iv (info.offset >>> 4)))]
      else []) ++ tree)

/-- The partition loop of `displayHeader` over the list positions `i`, `i + 1`, ... -/
def displayPartitions (lib : Collaborators) (self : State) :
    List Nat → Except String (List OutputItem)
  | [] => Except.ok []
  | i :: rest => do
    let block ← displayPartition lib self i
    let more ← displayPartitions lib self rest
    Except.ok (block ++ more)

/-- The method `NcaProcess::displayHeader` (lines 513-631): the items it prints, or the name
of the table that it reads out of bounds. -/
def displayHeader (lib : Collaborators) (self : State) : Except String (List OutputItem) := do
  let mHdr := self.mHdr
  let version ← readAt "kFormatVersionStr" kFormatVersionStr mHdr.formatVersion
  let dist ← readAt "kDistributionTypeStr" kDistributionTypeStr mHdr.distributionType
  let content ← readAt "kContentTypeStr" kContentTypeStr mHdr.contentType
  let kaek ← readAt "kKaekIndexStr" kKaekIndexStr mHdr.kaekIndex
  let partitions ← displayPartitions lib self (List.range mHdr.getPartitions.length)
  Except.ok
    ([OutputItem.printf "[NCA Header]\n",
        OutputItem.printf ("  Format Type:     " ++ version ++ "\n"),
        OutputItem.printf ("  Dist. Type:      " ++ dist ++ "\n"),
        OutputItem.printf ("  Content Type:    " ++ content ++ "\n"),
        OutputItem.printf ("  Key Generation:  " ++ toString mHdr.keyGeneration ++ "\n"),
        OutputItem.printf ("  Kaek Index:      " ++ kaek ++ " (" ++
          toString mHdr.kaekIndex ++ ")\n"),
        OutputItem.printf ("  Size:            0x" ++ fmtHex mHdr.contentSize ++ "\n"),
        OutputItem.printf ("  ProgID:          0x" ++
          padLeft '0' 16 (fmtHex mHdr.programId) ++ "\n"),
        OutputItem.printf ("  Content Index:   " ++ toString mHdr.contentIndex ++ "\n"),
        OutputItem.printf ("  SdkAddon Ver.:   v" ++ toString mHdr.sdkAddonVersion ++ " (" ++
          toString ((mHdr.sdkAddonVersion >>> 24) &&& 0xff) ++ "." ++
          toString ((mHdr.sdkAddonVersion >>> 16) &&& 0xff) ++ "." ++
          toString ((mHdr.sdkAddonVersion >>> 8) &&& 0xff) ++ ")\n"),
        OutputItem.printf "  RightsId:        ",
        OutputItem.printf (lib.hexDump mHdr.rightsId)] ++
      (if 0 < self.mBodyKeys.keak_list.length then
        [OutputItem.printf "  Key Area: \n",
          OutputItem.printf ("    <-----------------------------------------------------" ++
            "---------------------->\n"),
          OutputItem.printf ("    | IDX | ENCRYPTED KEY                    | DECRYPTED KEY" ++
            "                    |\n"),
          OutputItem.printf ("    |-----|----------------------------------|--------------" ++
            "--------------------|\n")] ++
        displayKeyArea self.mBodyKeys.keak_list ++
        [OutputItem.printf ("    <-----------------------------------------------------" ++
          "---------------------->\n")]
      else []) ++
      [OutputItem.printf "  Partitions:\n"] ++ partitions)

end NcaProcess

namespace NcaProcess

/-- The mount point name given to the partition at list position `i` (lines 659-666 and
680-687). -/
def mountPointName (mHdr : nx.NcaHeader) (i : Nat) : Except String String := do
  let content ← readAt "kContentTypeForMountStr" kContentTypeForMountStr mHdr.contentType
  if mHdr.contentType = nx.nca.TYPE_PROGRAM then
    let name ← readAt "kProgramPartitionNameStr" kProgramPartitionNameStr i
    Except.ok (content ++ ":/" ++ name)
  else
    Except.ok (content ++ ":/")

/-- The settings of the local `pfs` or `romfs` of `processPartitions`. -/
def partitionConfig (self : State) (index : Fin nx.nca.kPartitionNum) (reader : IFile)
    (mount : String) : FsProcessConfig :=
  ⟨reader, self.mCliOutputType, self.mListFs, some mount,
    if (self.mPartitionPath index).doExtract = true then some (self.mPartitionPath index).path
    else none⟩

/-- One iteration of the loop of `processPartitions` (lines 637-695) for the entry at list
position `i`. -/
def processPartition (lib : Collaborators) (self : State) (i : Nat)
    (entry : nx.sPartition) : Run :=
  let index := entry.index
  let partition := self.mPartitions index
  match partition.reader with
  | none =>
    -- if the reader is null, skip
    ⟨[OutputItem.printf ("[WARNING] NCA Partition " ++ toString index.val ++
        " not readable.")] ++
      (if partition.fail_reason ≠ "" then
        [OutputItem.printf (" (" ++ partition.fail_reason ++ ")")]
      else []) ++
      [OutputItem.printf "\n"], Outcome.returned⟩
  | some reader =>
    if partition.format_type = nx.nca.FORMAT_PFS0 then
      match mountPointName self.mHdr i with
      | Except.error table => ⟨[], Outcome.undefined table⟩
      | Except.ok mount =>
        let pfs := lib.pfsProcess (partitionConfig self index reader mount)
        ⟨[OutputItem.collaborator "PfsProcess" pfs.output],
          match pfs.exception with
          | some e => Outcome.threw e
          | none => Outcome.returned⟩
    else if partition.format_type = nx.nca.FORMAT_ROMFS then
      match mountPointName self.mHdr i with
      | Except.error table => ⟨[], Outcome.undefined table⟩
      | Except.ok mount =>
        let romfs := lib.romfsProcess (partitionConfig self index reader mount)
        ⟨[OutputItem.collaborator "RomfsProcess" romfs.output],
          match romfs.exception with
          | some e => Outcome.threw e
          | none => Outcome.returned⟩
    else ⟨[], Outcome.returned⟩

/-- The loop of `processPartitions` from list position `i` on. -/
def processPartitionsFrom (lib : Collaborators) (self : State) :
    Nat → List nx.sPartition → Run
  | _, [] => ⟨[], Outcome.returned⟩
  | i, entry :: rest =>
    (processPartition lib self i entry).andThen (processPartitionsFrom lib self (i + 1) rest)

/-- The method `NcaProcess::processPartitions` (lines 634-696). -/
def processPartitions (lib : Collaborators) (self : State) : Run :=
  processPartitionsFrom lib self 0 self.mHdr.getPartitions

/-- The call of `displayHeader` as a run. -/
def displayHeaderRun (lib : Collaborators) (self : State) : Run :=
  match displayHeader lib self with
  | Except.ok out => ⟨out, Outcome.returned⟩
  | Except.error table => ⟨[], Outcome.undefined table⟩

/-- The phases of `process()` after partition configuration (lines 142-151), run on the
state that the earlier phases left. -/
def processOutputPhases (lib : Collaborators) (self : State) : Run :=
  -- validate signatures
  (if self.mVerify = true then validateNcaSignatures lib self
    else ⟨[], Outcome.returned⟩).andThen
  -- display header
  ((if CliOutputType.OUTPUT_NORMAL.toNat ≤ self.mCliOutputType.toNat then
      displayHeaderRun lib self
    else ⟨[], Outcome.returned⟩).andThen
  -- process partition
  (processPartitions lib self))

/-- The method `NcaProcess::process` (lines 115-173). -/
def process (hlib : HeaderLib) (plib : PartitionLib) (lib : Collaborators) (self : State) :
    Run :=
  match self.mReader with
  | none => ⟨[], Outcome.threw "No file reader set."⟩
  | some mReader =>
    -- read and decrypt header block
    match hlib.loadHeaderBlock mReader self.mKeyset.nca.header_key with
    | Except.error e => ⟨[], Outcome.threw e⟩
    | Except.ok mHdrBlock =>
      -- generate header hash
      let mHdrHash := hlib.Sha256 mHdrBlock.header
      -- proccess main header
      match hlib.importBinary mHdrBlock.header with
      | Except.error e => ⟨[], Outcome.threw e⟩
      | Except.ok mHdr =>
        -- determine keys
        let mBodyKeys := generateNcaBodyEncryptionKeys mHdr self.mKeyset
        -- import/generate fs header data
        match generatePartitionConfiguration plib mReader mHdr mHdrBlock.fs_header mBodyKeys
            self.mPartitions with
        | Except.error e => ⟨[], Outcome.threw e⟩
        | Except.ok mPartitions =>
          processOutputPhases lib
            { self with
              mHdrBlock := mHdrBlock
              mHdrHash := mHdrHash
              mHdr := mHdr
              mBodyKeys := mBodyKeys
              mPartitions := mPartitions }

end NcaProcess

namespace NcaProcess.Sample

open crypto.aes

/-- Collaborators with fixed answers: the PFS processor prints nothing, throws
`pfsException` if given, and lists `files`; the NPDM processor throws `npdmException` if
given; every RSA check returns `rsa`. -/
def collaborators (pfsException : Option String) (files : List nx.PfsHeader.sFile)
    (npdmException : Option String) (rsa : Int) : Collaborators where
  rsaVerify := fun _ _ _ => rsa
  pfsProcess := fun _ => ⟨[], pfsException, files⟩
  romfsProcess := fun _ => ⟨[], none⟩
  npdmProcess := fun _ => ⟨[], npdmException, []⟩
  hexDump := fun _ => "\n"
  AesIncrementCounter := fun iv _ => iv

/-- A header library that yields the given header block and parsed header. -/
def headerLib (block : sNcaHeaderBlock) (hdr : nx.NcaHeader) : HeaderLib where
  loadHeaderBlock := fun _ _ => Except.ok block
  Sha256 := fun _ => []
  importBinary := fun _ => Except.ok hdr

/-- A header block with empty signatures and the given fs-header slots. -/
def headerBlock (fs : Fin nx.nca.kPartitionNum → nx.sNcaFsHeader) : sNcaHeaderBlock :=
  ⟨[], [], [], fs⟩

/-- An `NcaProcess` with the archive as input file, an empty keyset, verification switched
on, normal output, and the given header, fs-header slots and partition array. -/
def state (hdr : nx.NcaHeader) (fs : Fin nx.nca.kPartitionNum → nx.sNcaFsHeader)
    (mPartitions : Fin nx.nca.kPartitionNum → sPartitionInfo) : State where
  mReader := some archive
  mKeyset := keyset sAes128Key.zero sAes128Key.zero sAes128Key.zero sAes128Key.zero
  mCliOutputType := CliOutputType.OUTPUT_NORMAL
  mVerify := true
  mListFs := false
  mPartitionPath := fun _ => ⟨"", false⟩
  mHdrBlock := headerBlock fs
  mHdrHash := []
  mHdr := hdr
  mBodyKeys := sKeys.init
  mPartitions := mPartitions

/-- A partition array whose slot 0 is a readable PartitionFs partition. -/
def mPartitionsExefs : Fin nx.nca.kPartitionNum → sPartitionInfo :=
  fun i => if i = 0 then
    { sPartitionInfo.init with
      reader := some (IFile.OffsetAdjustedIFile archive 0xc00 0x200)
      offset := 0xc00
      size := 0x200
      format_type := nx.nca.FORMAT_PFS0
      hash_type := nx.nca.HASH_NONE
      enc_type := nx.nca.CRYPT_NONE }
  else sPartitionInfo.init

/-- A Program archive whose partition 0 is a plain PartitionFs partition, as it stands after
partition configuration. -/
def programState : State :=
  state (headerFor nx.nca.TYPE_PROGRAM fsPlainThenXts) fsPlainThenXts mPartitionsExefs

/-- An archive of content type 4 (not Program) whose partition 0 is a plain PartitionFs
partition, as it stands after partition configuration. -/
def dataState : State :=
  state (headerFor 4 fsPlainThenXts) fsPlainThenXts mPartitionsExefs

/-- A Program archive, before `process()`, whose partition 0 is a plain PartitionFs
partition. -/
def programStateFresh : State :=
  state (headerFor nx.nca.TYPE_PROGRAM fsPlainThenXts) fsPlainThenXts mPartitions0

/-- The header of `fsPlainThenXts` with the stored digest of slot 1 replaced by a single
zero byte. -/
def headerBadHash : nx.NcaHeader :=
  partitionHeader 4 (some (entry 0xc00 (fsPlainThenXts 0))) (some ⟨0xe00, 0x200, [0]⟩)

end NcaProcess.Sample

/-! ## What the header display shows for a partition -/

namespace NcaProcess

/-- The block that `displayHeader` prints at list position `i` once it holds the record
`info` (lines 572-630). -/
def displayPartitionInfo (lib : Collaborators) (i : Nat) (info : sPartitionInfo) :
    Except String (List OutputItem) := do
  let format ← readAt "kFormatTypeStr" kFormatTypeStr info.format_type
  let hash ← readAt "kHashTypeStr" kHashTypeStr info.hash_type
  let enc ← readAt "kEncryptionTypeStr" kEncryptionTypeStr info.enc_type
  let tree ← displayHashTree lib info
  Except.ok
    ([OutputItem.printf ("    " ++ toString i ++ ":\n"),
        OutputItem.printf ("      Offset:      0x" ++ fmtHex info.offset ++ "\n"),
        OutputItem.printf ("      Size:        0x" ++ fmtHex info.size ++ "\n"),
        OutputItem.printf ("      Format Type: " ++ format ++ "\n"),
        OutputItem.printf ("      Hash Type:   " ++ hash ++ "\n"),
        OutputItem.printf ("      Enc. Type:   " ++ enc ++ "\n")] ++
      (if info.enc_type = nx.nca.CRYPT_AESCTR then
        [OutputItem.printf "        AES-CTR:     ",
          OutputItem.printf
            (lib.hexDump (lib.AesIncrementCounter info.aes_ctr.iv (info.offset >>> 4)))]
      else []) ++ tree)

/-- The record that `displayHeader` reads for list position `i` (line 570):
`mPartitions[i]`. -/
def displayedInfo (self : State) (i : Nat) : Option sPartitionInfo :=
  (List.ofFn self.mPartitions)[i]?

/-- The record that `generatePartitionConfiguration` writes for a list entry (line 349), and
that `processPartitions` reads for it (line 639): `mPartitions[partition.index]`. -/
def storedInfo (self : State) (entry : nx.sPartition) : sPartitionInfo :=
  self.mPartitions entry.index

/-- The state after the call of `generatePartitionConfiguration` in `process()` (line 140),
when the call returns normally. -/
def configured (plib : PartitionLib) (self : State) (mReader : IFile) : Option State :=
  match generatePartitionConfiguration plib mReader self.mHdr self.mHdrBlock.fs_header
      self.mBodyKeys self.mPartitions with
  | Except.ok mPartitions => some { self with mPartitions := mPartitions }
  | Except.error _ => none

namespace Sample

/-- Four plain PartitionFs fs headers. -/
def fsAllPlain : Fin nx.nca.kPartitionNum → nx.sNcaFsHeader :=
  fun _ => fsHeader nx.nca.FORMAT_PFS0 nx.nca.HASH_NONE nx.nca.CRYPT_NONE

/-- A header of the given content type with the given partition table. -/
def headerWithTable (contentType : Nat)
    (table : Fin nx.nca.kPartitionNum → Option nx.sPartitionEntry) : nx.NcaHeader :=
  { header noRightsId crypto.aes.sAes128Key.zero with
    contentType := contentType
    partitionTable := table }

/-- A Program header that lists all four slots, each a plain PartitionFs partition of 0x200
bytes, at 0xc00, 0xe00, 0x1000 and 0x1200. -/
def headerFourPartitions : nx.NcaHeader :=
  headerWithTable nx.nca.TYPE_PROGRAM
    (fun i => some (entry (0xc00 + 0x200 * i.val) (fsAllPlain i)))

/-- A Data header that lists slot 1 (at 0xe00) and slot 2 (at 0x1000) only. -/
def headerSlots12 : nx.NcaHeader :=
  headerWithTable 4 (fun i =>
    if i = 1 then some (entry 0xe00 (fsAllPlain 1))
    else if i = 2 then some (entry 0x1000 (fsAllPlain 2))
    else none)

end Sample

end NcaProcess

/-! # Theorems -/

namespace NcaProcess
open crypto.aes

/-- The model of AES-128 decryption reproduces the example vector of FIPS-197 appendix C.1. -/
theorem generateKey_fips197 :
    nx.AesKeygen.generateKey Sample.fipsCipher Sample.fipsKey = Sample.fipsPlain := by decide

/-- The model of AES-128 decryption inverts the encryption of the zero block of RFC 4493. -/
theorem generateKey_rfc4493 :
    nx.AesKeygen.generateKey Sample.rfcCipherOfZero Sample.rfcKey = sAes128Key.zero := by decide


end NcaProcess

namespace NcaProcess
open crypto.aes

theorem finRange_kAesKeyNum : List.finRange nx.nca.kAesKeyNum = [0, 1, 2, 3] := by decide

theorem keyAreaStep_fold (hdr : nx.NcaHeader) (kaek : sAes128Key)
    (l : List (Fin nx.nca.kAesKeyNum)) :
    ∀ st : sKeyAreaKey × List sKeyAreaKey,
      (l.foldl (keyAreaStep hdr kaek) st).2 =
          st.2 ++ (l.filter (fun i => hdr.encAesKeys i ≠ sAes128Key.zero)).map
            (keyAreaRecord hdr kaek st.1.dec) ∧
        (kaek = sAes128Key.zero → (l.foldl (keyAreaStep hdr kaek) st).1.dec = st.1.dec) := by
  induction l with
  | nil => intro st; simp
  | cons i l ih =>
    intro st
    have hi : i.val < 4 := i.isLt
    obtain ⟨ih1, ih2⟩ := ih (keyAreaStep hdr kaek st i)
    simp only [List.foldl_cons]
    by_cases he : hdr.encAesKeys i = sAes128Key.zero
    · have hs : keyAreaStep hdr kaek st i = st := by simp [keyAreaStep, he]
      rw [hs] at ih1 ih2
      refine ⟨?_, ?_⟩
      · rw [hs, ih1]; simp [List.filter, he]
      · rw [hs]; exact ih2
    · by_cases hk : kaek = sAes128Key.zero
      · have hs : keyAreaStep hdr kaek st i =
            (keyAreaRecord hdr kaek st.1.dec i, st.2 ++ [keyAreaRecord hdr kaek st.1.dec i]) := by
          simp [keyAreaStep, he, hk, keyAreaRecord]
        rw [hs] at ih1 ih2
        refine ⟨?_, ?_⟩
        · rw [hs, ih1]; simp [List.filter, he, keyAreaRecord, hk]
        · intro _; rw [hs, ih2 hk]; simp [keyAreaRecord, hk]
      · have hs : keyAreaStep hdr kaek st i =
            (keyAreaRecord hdr kaek st.1.dec i, st.2 ++ [keyAreaRecord hdr kaek st.1.dec i]) := by
          simp [keyAreaStep, he, hk, keyAreaRecord, hi]
        rw [hs] at ih1
        refine ⟨?_, ?_⟩
        · rw [hs, ih1]; simp [List.filter, he, keyAreaRecord, hk]
        · intro h; exact absurd h hk

theorem keak_list_eq (hdr : nx.NcaHeader) (keyset : sKeyset) :
    (generateNcaBodyEncryptionKeys hdr keyset).keak_list =
      ((List.finRange nx.nca.kAesKeyNum).filter
        (fun i => hdr.encAesKeys i ≠ sAes128Key.zero)).map
        (keyAreaRecord hdr (selectedKaek hdr keyset) sAes128Key.zero) := by
  have h := (keyAreaStep_fold hdr (selectedKaek hdr keyset) (List.finRange nx.nca.kAesKeyNum)
    (keakInit, sKeys.init.keak_list)).1
  simpa [generateNcaBodyEncryptionKeys, selectedKaek, sKeys.init, keakInit] using h

theorem keakSelect_fold (hdr : nx.NcaHeader) (kaek d0 : sAes128Key) :
    (((List.finRange nx.nca.kAesKeyNum).filter
        (fun i => hdr.encAesKeys i ≠ sAes128Key.zero)).map
        (keyAreaRecord hdr kaek d0)).foldl keakSelectStep (sAes128Key.zero, sAesXts128Key.zero) =
      (if hdr.encAesKeys 2 ≠ sAes128Key.zero ∧ kaek ≠ sAes128Key.zero then
          nx.AesKeygen.generateKey (hdr.encAesKeys 2) kaek else sAes128Key.zero,
       ⟨if hdr.encAesKeys 0 ≠ sAes128Key.zero ∧ kaek ≠ sAes128Key.zero then
          nx.AesKeygen.generateKey (hdr.encAesKeys 0) kaek else sAes128Key.zero,
        if hdr.encAesKeys 1 ≠ sAes128Key.zero ∧ kaek ≠ sAes128Key.zero then
          nx.AesKeygen.generateKey (hdr.encAesKeys 1) kaek else sAes128Key.zero⟩) := by
  have v3 : ((3 : Fin nx.nca.kAesKeyNum) : Nat) = 3 := rfl
  rw [finRange_kAesKeyNum]
  by_cases hk : kaek = sAes128Key.zero <;>
  by_cases h0 : hdr.encAesKeys 0 = sAes128Key.zero <;>
  by_cases h1 : hdr.encAesKeys 1 = sAes128Key.zero <;>
  by_cases h2 : hdr.encAesKeys 2 = sAes128Key.zero <;>
  by_cases h3 : hdr.encAesKeys 3 = sAes128Key.zero <;>
  simp [List.filter, keyAreaRecord, keakSelectStep, hk, h0, h1, h2, h3, sAesXts128Key.zero, v3,
    nx.nca.KEY_AESCTR, nx.nca.KEY_AESXTS_0, nx.nca.KEY_AESXTS_1]

end NcaProcess

namespace NcaProcess
open crypto.aes

theorem aes_ctr_eq (hdr : nx.NcaHeader) (keyset : sKeyset) :
    (generateNcaBodyEncryptionKeys hdr keyset).aes_ctr =
      (if hdr.hasRightsId = true then
        (if selectedTitlekeyKek hdr keyset ≠ sAes128Key.zero ∧
            keyset.nca.manual_title_key_aesctr ≠ sAes128Key.zero then
          ⟨true, nx.AesKeygen.generateKey keyset.nca.manual_title_key_aesctr
            (selectedTitlekeyKek hdr keyset)⟩
        else if keyset.nca.manual_body_key_aesctr ≠ sAes128Key.zero then
          ⟨true, keyset.nca.manual_body_key_aesctr⟩
        else ⟨false, sAes128Key.zero⟩)
      else
        (if hdr.encAesKeys 2 ≠ sAes128Key.zero ∧ selectedKaek hdr keyset ≠ sAes128Key.zero ∧
            nx.AesKeygen.generateKey (hdr.encAesKeys 2) (selectedKaek hdr keyset) ≠
              sAes128Key.zero then
          ⟨true, nx.AesKeygen.generateKey (hdr.encAesKeys 2) (selectedKaek hdr keyset)⟩
        else if keyset.nca.manual_body_key_aesctr ≠ sAes128Key.zero then
          ⟨true, keyset.nca.manual_body_key_aesctr⟩
        else ⟨false, sAes128Key.zero⟩)) := by
  have hl := keak_list_eq hdr keyset
  have hf := keakSelect_fold hdr (selectedKaek hdr keyset) sAes128Key.zero
  rw [← hl] at hf
  have hl2 : (generateNcaBodyEncryptionKeys hdr keyset).keak_list =
      ((List.finRange nx.nca.kAesKeyNum).foldl
        (keyAreaStep hdr (selectedKaek hdr keyset)) (keakInit, sKeys.init.keak_list)).2 := rfl
  rw [hl2] at hf
  simp only [generateNcaBodyEncryptionKeys]
  simp only [selectedKaek] at hf
  simp only [hf]
  by_cases hr : hdr.hasRightsId = true
  · by_cases hk : selectedTitlekeyKek hdr keyset = sAes128Key.zero <;>
    by_cases ht : keyset.nca.manual_title_key_aesctr = sAes128Key.zero <;>
    by_cases hm : keyset.nca.manual_body_key_aesctr = sAes128Key.zero <;>
    simp_all [selectedTitlekeyKek, sOptional.assign, sKeys.init]
  · by_cases he : hdr.encAesKeys 2 = sAes128Key.zero <;>
    by_cases hk : selectedKaek hdr keyset = sAes128Key.zero <;>
    by_cases hm : keyset.nca.manual_body_key_aesctr = sAes128Key.zero <;>
    by_cases hd : nx.AesKeygen.generateKey (hdr.encAesKeys 2) (selectedKaek hdr keyset) =
      sAes128Key.zero <;>
    simp_all [selectedKaek, sOptional.assign, sKeys.init]

theorem aes_xts_eq (hdr : nx.NcaHeader) (keyset : sKeyset) :
    (generateNcaBodyEncryptionKeys hdr keyset).aes_xts =
      (if hdr.hasRightsId = true then
        (if selectedTitlekeyKek hdr keyset ≠ sAes128Key.zero ∧
            keyset.nca.manual_title_key_aesxts ≠ sAesXts128Key.zero then
          ⟨true, ⟨nx.AesKeygen.generateKey keyset.nca.manual_title_key_aesxts.key0
              (selectedTitlekeyKek hdr keyset),
            nx.AesKeygen.generateKey keyset.nca.manual_title_key_aesxts.key1
              (selectedTitlekeyKek hdr keyset)⟩⟩
        else if keyset.nca.manual_body_key_aesxts ≠ sAesXts128Key.zero then
          ⟨true, keyset.nca.manual_body_key_aesxts⟩
        else ⟨false, sAesXts128Key.zero⟩)
      else
        (if keakAesXtsKey hdr (selectedKaek hdr keyset) ≠ sAesXts128Key.zero then
          ⟨true, keakAesXtsKey hdr (selectedKaek hdr keyset)⟩
        else if keyset.nca.manual_body_key_aesxts ≠ sAesXts128Key.zero then
          ⟨true, keyset.nca.manual_body_key_aesxts⟩
        else ⟨false, sAesXts128Key.zero⟩)) := by
  have hl := keak_list_eq hdr keyset
  have hf := keakSelect_fold hdr (selectedKaek hdr keyset) sAes128Key.zero
  rw [← hl] at hf
  have hl2 : (generateNcaBodyEncryptionKeys hdr keyset).keak_list =
      ((List.finRange nx.nca.kAesKeyNum).foldl
        (keyAreaStep hdr (selectedKaek hdr keyset)) (keakInit, sKeys.init.keak_list)).2 := rfl
  rw [hl2] at hf
  have hx : keakAesXtsKey hdr (selectedKaek hdr keyset) =
      ⟨if hdr.encAesKeys 0 ≠ sAes128Key.zero ∧ selectedKaek hdr keyset ≠ sAes128Key.zero then
          nx.AesKeygen.generateKey (hdr.encAesKeys 0) (selectedKaek hdr keyset)
        else sAes128Key.zero,
        if hdr.encAesKeys 1 ≠ sAes128Key.zero ∧ selectedKaek hdr keyset ≠ sAes128Key.zero then
          nx.AesKeygen.generateKey (hdr.encAesKeys 1) (selectedKaek hdr keyset)
        else sAes128Key.zero⟩ := rfl
  rw [← hx] at hf
  simp only [generateNcaBodyEncryptionKeys]
  simp only [selectedKaek] at hf
  simp only [hf]
  by_cases hr : hdr.hasRightsId = true
  · by_cases hk : selectedTitlekeyKek hdr keyset = sAes128Key.zero <;>
    by_cases ht : keyset.nca.manual_title_key_aesxts = sAesXts128Key.zero <;>
    by_cases hm : keyset.nca.manual_body_key_aesxts = sAesXts128Key.zero <;>
    simp_all [selectedTitlekeyKek, sOptional.assign, sKeys.init]
  · by_cases hk : keakAesXtsKey hdr (selectedKaek hdr keyset) = sAesXts128Key.zero <;>
    by_cases hm : keyset.nca.manual_body_key_aesxts = sAesXts128Key.zero <;>
    simp_all [selectedKaek, sOptional.assign, sKeys.init]

end NcaProcess

namespace NcaProcess
open crypto.aes

/-! ## C1: manual body keys -/

/-- C1, as stated, fails: with an all-zero rights id, key-area slot 2 holding the FIPS-197
ciphertext, the FIPS-197 key as key-area key and a non-zero manual body key, the body
AES-CTR key is the decrypted key-area key and not the manual body key. -/
theorem manual_body_key_override_counterexample :
    (Sample.keyset Sample.fipsKey sAes128Key.zero sAes128Key.zero
        Sample.userKey).nca.manual_body_key_aesctr ≠ sAes128Key.zero ∧
      ¬ ((generateNcaBodyEncryptionKeys (Sample.header Sample.noRightsId Sample.fipsCipher)
            (Sample.keyset Sample.fipsKey sAes128Key.zero sAes128Key.zero
              Sample.userKey)).aes_ctr.isSet = true ∧
          (generateNcaBodyEncryptionKeys (Sample.header Sample.noRightsId Sample.fipsCipher)
            (Sample.keyset Sample.fipsKey sAes128Key.zero sAes128Key.zero
              Sample.userKey)).aes_ctr.var =
            (Sample.keyset Sample.fipsKey sAes128Key.zero sAes128Key.zero
              Sample.userKey).nca.manual_body_key_aesctr) := by
  decide

/-- C1 (amended): manual body keys are a fallback.  When `manual_body_key_aesctr` is non-zero
the body AES-CTR key is set after `generateNcaBodyEncryptionKeys`; it is the ticket-derived key
when the rights id is non-zero and both `titlekey_kek[masterkey_rev]` and the manual title key
are non-zero, the key-area-derived key when the rights id is zero and slot 2, the key-area key
and the decryption of slot 2 are all non-zero, and the manual body key in every other case.
Likewise for a non-zero `manual_body_key_aesxts` and the body AES-XTS key. -/
theorem manual_body_keys_are_fallback (hdr : nx.NcaHeader) (keyset : sKeyset) :
    (keyset.nca.manual_body_key_aesctr ≠ sAes128Key.zero →
      (generateNcaBodyEncryptionKeys hdr keyset).aes_ctr.isSet = true ∧
      (generateNcaBodyEncryptionKeys hdr keyset).aes_ctr.var =
        (if hdr.hasRightsId = true then
          (if selectedTitlekeyKek hdr keyset ≠ sAes128Key.zero ∧
              keyset.nca.manual_title_key_aesctr ≠ sAes128Key.zero then
            nx.AesKeygen.generateKey keyset.nca.manual_title_key_aesctr
              (selectedTitlekeyKek hdr keyset)
          else keyset.nca.manual_body_key_aesctr)
        else
          (if hdr.encAesKeys 2 ≠ sAes128Key.zero ∧ selectedKaek hdr keyset ≠ sAes128Key.zero ∧
              nx.AesKeygen.generateKey (hdr.encAesKeys 2) (selectedKaek hdr keyset) ≠
                sAes128Key.zero then
            nx.AesKeygen.generateKey (hdr.encAesKeys 2) (selectedKaek hdr keyset)
          else keyset.nca.manual_body_key_aesctr))) ∧
    (keyset.nca.manual_body_key_aesxts ≠ sAesXts128Key.zero →
      (generateNcaBodyEncryptionKeys hdr keyset).aes_xts.isSet = true ∧
      (generateNcaBodyEncryptionKeys hdr keyset).aes_xts.var =
        (if hdr.hasRightsId = true then
          (if selectedTitlekeyKek hdr keyset ≠ sAes128Key.zero ∧
              keyset.nca.manual_title_key_aesxts ≠ sAesXts128Key.zero then
            ⟨nx.AesKeygen.generateKey keyset.nca.manual_title_key_aesxts.key0
                (selectedTitlekeyKek hdr keyset),
              nx.AesKeygen.generateKey keyset.nca.manual_title_key_aesxts.key1
                (selectedTitlekeyKek hdr keyset)⟩
          else keyset.nca.manual_body_key_aesxts)
        else
          (if keakAesXtsKey hdr (selectedKaek hdr keyset) ≠ sAesXts128Key.zero then
            keakAesXtsKey hdr (selectedKaek hdr keyset)
          else keyset.nca.manual_body_key_aesxts))) := by
  refine ⟨fun hm => ?_, fun hm => ?_⟩
  · rw [aes_ctr_eq]
    split_ifs <;> simp_all
  · rw [aes_xts_eq]
    split_ifs <;> simp_all

/-- Witness for `manual_body_keys_are_fallback`: a keyset with only a manual AES-CTR body
key, and a keyset with only a manual AES-XTS body key; in both the manual key is used. -/
theorem manual_body_keys_are_fallback_witness :
    ((generateNcaBodyEncryptionKeys (Sample.header Sample.noRightsId sAes128Key.zero)
        (Sample.keyset sAes128Key.zero sAes128Key.zero sAes128Key.zero
          Sample.userKey)).aes_ctr.isSet = true) ∧
    ((generateNcaBodyEncryptionKeys (Sample.header Sample.noRightsId sAes128Key.zero)
        (Sample.keysetXts ⟨Sample.userKey, Sample.fipsKey⟩)).aes_xts.isSet = true) :=
  ⟨((manual_body_keys_are_fallback (Sample.header Sample.noRightsId sAes128Key.zero)
      (Sample.keyset sAes128Key.zero sAes128Key.zero sAes128Key.zero Sample.userKey)).1
      (by decide)).1,
   ((manual_body_keys_are_fallback (Sample.header Sample.noRightsId sAes128Key.zero)
      (Sample.keysetXts ⟨Sample.userKey, Sample.fipsKey⟩)).2 (by decide)).1⟩

end NcaProcess

namespace NcaProcess
open crypto.aes

/-! ## C2: key-area path -/

/-- C2, as stated, fails for the all-zero plaintext key: with an all-zero rights id, key-area
slot 2 holding the encryption of the zero block under the (non-zero) key-area key, and no
manual keys, the body AES-CTR key is not set at all. -/
theorem key_area_zero_plaintext_counterexample :
    (Sample.header Sample.noRightsId Sample.rfcCipherOfZero).hasRightsId = false ∧
    (Sample.header Sample.noRightsId Sample.rfcCipherOfZero).encAesKeys 2 ≠ sAes128Key.zero ∧
    selectedKaek (Sample.header Sample.noRightsId Sample.rfcCipherOfZero)
      (Sample.keyset Sample.rfcKey sAes128Key.zero sAes128Key.zero sAes128Key.zero) ≠
        sAes128Key.zero ∧
    ¬ ((generateNcaBodyEncryptionKeys (Sample.header Sample.noRightsId Sample.rfcCipherOfZero)
          (Sample.keyset Sample.rfcKey sAes128Key.zero sAes128Key.zero
            sAes128Key.zero)).aes_ctr.isSet = true ∧
        (generateNcaBodyEncryptionKeys (Sample.header Sample.noRightsId Sample.rfcCipherOfZero)
          (Sample.keyset Sample.rfcKey sAes128Key.zero sAes128Key.zero
            sAes128Key.zero)).aes_ctr.var =
          nx.AesKeygen.generateKey
            ((Sample.header Sample.noRightsId Sample.rfcCipherOfZero).encAesKeys 2)
            (selectedKaek (Sample.header Sample.noRightsId Sample.rfcCipherOfZero)
              (Sample.keyset Sample.rfcKey sAes128Key.zero sAes128Key.zero
                sAes128Key.zero))) := by
  decide

/-- C2 (amended): for every header whose rights id is all-zero and whose key-area slot 2 is
non-zero, and every keyset whose `key_area_key[kaek_index][master_key_rev]` is non-zero, if the
AES-128-ECB decryption of slot 2 under that key is non-zero then the body AES-CTR key is set
and equals that decryption. -/
theorem key_area_ctr_key (hdr : nx.NcaHeader) (keyset : sKeyset)
    (hr : hdr.hasRightsId = false)
    (he : hdr.encAesKeys 2 ≠ sAes128Key.zero)
    (hk : keyset.nca.key_area_key hdr.kaekIndex
      (nx.NcaUtils.getMasterKeyRevisionFromKeyGeneration hdr.keyGeneration) ≠ sAes128Key.zero)
    (hd : nx.AesKeygen.generateKey (hdr.encAesKeys 2)
      (keyset.nca.key_area_key hdr.kaekIndex
        (nx.NcaUtils.getMasterKeyRevisionFromKeyGeneration hdr.keyGeneration)) ≠
          sAes128Key.zero) :
    (generateNcaBodyEncryptionKeys hdr keyset).aes_ctr.isSet = true ∧
    (generateNcaBodyEncryptionKeys hdr keyset).aes_ctr.var =
      nx.AesKeygen.generateKey (hdr.encAesKeys 2)
        (keyset.nca.key_area_key hdr.kaekIndex
          (nx.NcaUtils.getMasterKeyRevisionFromKeyGeneration hdr.keyGeneration)) := by
  rw [aes_ctr_eq]
  have h : hdr.encAesKeys 2 ≠ sAes128Key.zero ∧ selectedKaek hdr keyset ≠ sAes128Key.zero ∧
      nx.AesKeygen.generateKey (hdr.encAesKeys 2) (selectedKaek hdr keyset) ≠
        sAes128Key.zero := ⟨he, hk, hd⟩
  rw [if_neg (by simp [hr]), if_pos h]
  exact ⟨rfl, rfl⟩

/-- Witness for `key_area_ctr_key`: slot 2 holds the FIPS-197 ciphertext and the key-area
key is the FIPS-197 key, so the body AES-CTR key is the FIPS-197 plaintext. -/
theorem key_area_ctr_key_witness :
    (generateNcaBodyEncryptionKeys (Sample.header Sample.noRightsId Sample.fipsCipher)
        (Sample.keyset Sample.fipsKey sAes128Key.zero sAes128Key.zero
          sAes128Key.zero)).aes_ctr.isSet = true ∧
    (generateNcaBodyEncryptionKeys (Sample.header Sample.noRightsId Sample.fipsCipher)
        (Sample.keyset Sample.fipsKey sAes128Key.zero sAes128Key.zero
          sAes128Key.zero)).aes_ctr.var =
      nx.AesKeygen.generateKey
        ((Sample.header Sample.noRightsId Sample.fipsCipher).encAesKeys 2)
        ((Sample.keyset Sample.fipsKey sAes128Key.zero sAes128Key.zero
          sAes128Key.zero).nca.key_area_key
            (Sample.header Sample.noRightsId Sample.fipsCipher).kaekIndex
            (nx.NcaUtils.getMasterKeyRevisionFromKeyGeneration
              (Sample.header Sample.noRightsId Sample.fipsCipher).keyGeneration)) :=
  key_area_ctr_key (Sample.header Sample.noRightsId Sample.fipsCipher)
    (Sample.keyset Sample.fipsKey sAes128Key.zero sAes128Key.zero sAes128Key.zero)
    (by decide) (by decide) (by decide) (by decide)

/-! ## C3: ticket path -/

/-- C3: for every header with a non-zero rights id and every keyset with non-zero
`titlekey_kek[master_key_rev]` and non-zero `manual_title_key_aesctr`, the body AES-CTR key is
set and equals the AES-ECB decryption of the manual title key under the ticket key; replacing
the encrypted key area of the header and the key-area-key matrix of the keyset by any other
values leaves the body AES-CTR key unchanged. -/
theorem ticket_ctr_key (hdr : nx.NcaHeader) (keyset : sKeyset)
    (hr : hdr.hasRightsId = true)
    (hk : keyset.ticket.titlekey_kek
      (nx.NcaUtils.getMasterKeyRevisionFromKeyGeneration hdr.keyGeneration) ≠ sAes128Key.zero)
    (ht : keyset.nca.manual_title_key_aesctr ≠ sAes128Key.zero) :
    ((generateNcaBodyEncryptionKeys hdr keyset).aes_ctr.isSet = true ∧
      (generateNcaBodyEncryptionKeys hdr keyset).aes_ctr.var =
        nx.AesKeygen.generateKey keyset.nca.manual_title_key_aesctr
          (keyset.ticket.titlekey_kek
            (nx.NcaUtils.getMasterKeyRevisionFromKeyGeneration hdr.keyGeneration))) ∧
    ∀ (encAesKeys : Fin nx.nca.kAesKeyNum → sAes128Key)
      (key_area_key : Nat → Nat → sAes128Key),
      (generateNcaBodyEncryptionKeys { hdr with encAesKeys := encAesKeys }
          { keyset with nca := { keyset.nca with key_area_key := key_area_key } }).aes_ctr =
        (generateNcaBodyEncryptionKeys hdr keyset).aes_ctr := by
  have key : ∀ (h : nx.NcaHeader) (k : sKeyset), h.hasRightsId = true →
      selectedTitlekeyKek h k ≠ sAes128Key.zero →
      k.nca.manual_title_key_aesctr ≠ sAes128Key.zero →
      (generateNcaBodyEncryptionKeys h k).aes_ctr =
        ⟨true, nx.AesKeygen.generateKey k.nca.manual_title_key_aesctr
          (selectedTitlekeyKek h k)⟩ := by
    intro h k h1 h2 h3
    rw [aes_ctr_eq, if_pos h1, if_pos ⟨h2, h3⟩]
  refine ⟨?_, ?_⟩
  · rw [key hdr keyset hr hk ht]
    exact ⟨rfl, rfl⟩
  · intro e kak
    rw [key hdr keyset hr hk ht]
    exact key _ _ hr hk ht

/-- Witness for `ticket_ctr_key`: a non-zero rights id, the FIPS-197 key as ticket key and
the FIPS-197 ciphertext as manual title key. -/
theorem ticket_ctr_key_witness :
    (generateNcaBodyEncryptionKeys (Sample.header Sample.someRightsId sAes128Key.zero)
        (Sample.keyset sAes128Key.zero Sample.fipsKey Sample.fipsCipher
          sAes128Key.zero)).aes_ctr.isSet = true :=
  (ticket_ctr_key (Sample.header Sample.someRightsId sAes128Key.zero)
    (Sample.keyset sAes128Key.zero Sample.fipsKey Sample.fipsCipher sAes128Key.zero)
    (by decide) (by decide) (by decide)).1.1

/-! ## C9: key-area records -/

/-- C9: after `generateNcaBodyEncryptionKeys` the key-area-key list holds, in ascending slot
order, exactly one record for each of the 4 key-area slots whose encrypted key is non-zero
(and none for all-zero slots); each record carries its slot number and the slot's encrypted
key, is marked decrypted exactly when `key_area_key[kaek_index][master_key_rev]` is non-zero,
and then holds the AES-128-ECB decryption of its own encrypted key under that key. -/
theorem key_area_records (hdr : nx.NcaHeader) (keyset : sKeyset) :
    (generateNcaBodyEncryptionKeys hdr keyset).keak_list.map (fun k => (k.index, k.enc)) =
      ((List.finRange nx.nca.kAesKeyNum).filter
        (fun i => hdr.encAesKeys i ≠ sAes128Key.zero)).map
        (fun i => (i.val, hdr.encAesKeys i)) ∧
    ∀ k ∈ (generateNcaBodyEncryptionKeys hdr keyset).keak_list,
      (k.decrypted = true ↔
        keyset.nca.key_area_key hdr.kaekIndex
          (nx.NcaUtils.getMasterKeyRevisionFromKeyGeneration hdr.keyGeneration) ≠
            sAes128Key.zero) ∧
      (k.decrypted = true →
        k.dec = nx.AesKeygen.generateKey k.enc
          (keyset.nca.key_area_key hdr.kaekIndex
            (nx.NcaUtils.getMasterKeyRevisionFromKeyGeneration hdr.keyGeneration))) := by
  rw [keak_list_eq]
  refine ⟨?_, ?_⟩
  · simp [keyAreaRecord, Function.comp_def]
  · intro k hk
    obtain ⟨i, _, rfl⟩ := List.mem_map.1 hk
    by_cases hz : selectedKaek hdr keyset = sAes128Key.zero
    · have hz2 := hz
      simp only [selectedKaek] at hz2
      simp [keyAreaRecord, hz, hz2]
    · have hz2 := hz
      simp only [selectedKaek] at hz2
      simp [keyAreaRecord, hz, hz2]
      rfl

end NcaProcess

namespace NcaProcess
open crypto.aes

/-! ## Partition assembly: the loop -/

theorem importSuperblock_ok (lib : PartitionLib) (h : nx.sNcaFsHeader)
    (current : HashTreeMeta) (hi : SuperblockImports lib h) :
    ∃ hashMeta, importSuperblock lib h current = Except.ok hashMeta := by
  unfold importSuperblock
  obtain ⟨h1, h2⟩ := hi
  by_cases hs : h.hash_type = nx.nca.HASH_HIERARCHICAL_SHA256
  · rw [if_pos hs]
    have := h1 hs
    cases hr : lib.importHierarchicalSha256Header h.hash_superblock with
    | ok m => exact ⟨m, rfl⟩
    | error e => rw [hr] at this; cases this
  · rw [if_neg hs]
    by_cases hg : h.hash_type = nx.nca.HASH_HIERARCHICAL_INTERGRITY
    · rw [if_pos hg]
      have := h2 hg
      cases hr : lib.importHierarchicalIntergityHeader h.hash_superblock with
      | ok m => exact ⟨m, rfl⟩
      | error e => rw [hr] at this; cases this
    · rw [if_neg hg]
      exact ⟨current, rfl⟩

theorem importSuperblock_error (lib : PartitionLib) (h : nx.sNcaFsHeader)
    (current : HashTreeMeta) (hi : ¬ SuperblockImports lib h) :
    ∃ e, importSuperblock lib h current = Except.error e := by
  cases hr : importSuperblock lib h current with
  | error e => exact ⟨e, rfl⟩
  | ok m =>
    exfalso
    apply hi
    unfold importSuperblock at hr
    constructor
    · intro hs
      rw [if_pos hs] at hr
      rw [hr]; rfl
    · intro hg
      have hs : ¬ h.hash_type = nx.nca.HASH_HIERARCHICAL_SHA256 := by
        rw [hg]; decide
      rw [if_neg hs, if_pos hg] at hr
      rw [hr]; rfl

/-- The iteration of the loop for a partition whose fs-header checks pass, in terms of the
outcome of the superblock import. -/
theorem configurePartition_valid (lib : PartitionLib) (archive : IFile)
    (fs : Fin nx.nca.kPartitionNum → nx.sNcaFsHeader) (keys : sKeys)
    (st : PartitionLoopState) (p : nx.sPartition) (hv : FsHeaderValid lib fs p) :
    configurePartition lib archive fs keys st p =
      match importSuperblock lib (fs p.index) (st.mPartitions p.index).hash_tree_meta with
      | Except.error e => Except.error e
      | Except.ok _ =>
        Except.ok ⟨(createReader archive keys
            (savedConfig lib (fs p.index) p (st.mPartitions p.index)) st.error).error,
          Function.update st.mPartitions p.index
            (configuredInfo lib archive (fs p.index) keys p (st.mPartitions p.index)
              st.error)⟩ := by
  obtain ⟨h1, h2⟩ := hv
  unfold configurePartition
  simp only [h1, h2, ne_eq, not_true_eq_false, if_false]
  unfold configuredInfo savedConfig importSuperblock
  by_cases hs : (fs p.index).hash_type = nx.nca.HASH_HIERARCHICAL_SHA256
  · simp only [hs, if_true]
    cases lib.importHierarchicalSha256Header (fs p.index).hash_superblock <;> rfl
  · by_cases hg : (fs p.index).hash_type = nx.nca.HASH_HIERARCHICAL_INTERGRITY
    · simp only [hs, hg, if_true, if_false]
      cases lib.importHierarchicalIntergityHeader (fs p.index).hash_superblock <;> rfl
    · simp only [hs, hg, if_false]

theorem configurePartition_ok (lib : PartitionLib) (archive : IFile)
    (fs : Fin nx.nca.kPartitionNum → nx.sNcaFsHeader) (keys : sKeys)
    (st : PartitionLoopState) (p : nx.sPartition) (hv : FsHeaderValid lib fs p)
    (hi : SuperblockImports lib (fs p.index)) :
    configurePartition lib archive fs keys st p =
      Except.ok ⟨(createReader archive keys
          (savedConfig lib (fs p.index) p (st.mPartitions p.index)) st.error).error,
        Function.update st.mPartitions p.index
          (configuredInfo lib archive (fs p.index) keys p (st.mPartitions p.index)
            st.error)⟩ := by
  rw [configurePartition_valid lib archive fs keys st p hv]
  obtain ⟨m, hm⟩ := importSuperblock_ok lib (fs p.index)
    (st.mPartitions p.index).hash_tree_meta hi
  rw [hm]

end NcaProcess

namespace NcaProcess
open crypto.aes

theorem createReader_reader (archive : IFile) (keys : sKeys) (info : sPartitionInfo)
    (error : String) :
    (match (createReader archive keys info error).thrown with
      | some _ => none
      | none => (createReader archive keys info error).reader) =
      (if info.format_type = nx.nca.FORMAT_PFS0 ∨ info.format_type = nx.nca.FORMAT_ROMFS then
        match encryptionReader archive keys info.aes_ctr info.offset info.size
            info.enc_type with
        | some base =>
          if info.hash_type = nx.nca.HASH_HIERARCHICAL_SHA256 ∨
              info.hash_type = nx.nca.HASH_HIERARCHICAL_INTERGRITY then
            some (IFile.HashTreeWrappedIFile base info.hash_tree_meta)
          else if info.hash_type = nx.nca.HASH_NONE then some base
          else none
        | none => none
      else none) := by
  unfold createReader encryptionReader
  by_cases hf : info.format_type = nx.nca.FORMAT_PFS0 ∨ info.format_type = nx.nca.FORMAT_ROMFS
  · by_cases h1 : info.enc_type = nx.nca.CRYPT_NONE
    · by_cases hh : info.hash_type = nx.nca.HASH_HIERARCHICAL_SHA256 ∨
          info.hash_type = nx.nca.HASH_HIERARCHICAL_INTERGRITY
      · simp [hf, h1, hh]
      · by_cases hn : info.hash_type = nx.nca.HASH_NONE <;> simp [hf, h1, hh, hn]
    · by_cases h2 : info.enc_type = nx.nca.CRYPT_AESCTR
      · by_cases hk : keys.aes_ctr.isSet = true
        · by_cases hh : info.hash_type = nx.nca.HASH_HIERARCHICAL_SHA256 ∨
              info.hash_type = nx.nca.HASH_HIERARCHICAL_INTERGRITY
          · simp [hf, h2, hk, hh]
          · by_cases hn : info.hash_type = nx.nca.HASH_NONE <;> simp [hf, h2, hk, hh, hn]
        · simp [hf, h2, hk]
      · by_cases h3 : info.enc_type = nx.nca.CRYPT_AESXTS ∨
            info.enc_type = nx.nca.CRYPT_AESCTREX
        · simp [hf, h1, h2, h3]
        · simp [hf, h1, h2, h3]
  · simp [hf]

theorem configuredInfo_reader (lib : PartitionLib) (archive : IFile) (h : nx.sNcaFsHeader)
    (keys : sKeys) (p : nx.sPartition) (info : sPartitionInfo) (error : String) :
    (configuredInfo lib archive h keys p info error).reader =
      (if h.format_type = nx.nca.FORMAT_PFS0 ∨ h.format_type = nx.nca.FORMAT_ROMFS then
        match encryptionReader archive keys (lib.getNcaPartitionAesCtr h) p.offset p.size
            h.encryption_type with
        | some base =>
          if h.hash_type = nx.nca.HASH_HIERARCHICAL_SHA256 ∨
              h.hash_type = nx.nca.HASH_HIERARCHICAL_INTERGRITY then
            some (IFile.HashTreeWrappedIFile base
              (savedConfig lib h p info).hash_tree_meta)
          else if h.hash_type = nx.nca.HASH_NONE then some base
          else none
        | none => none
      else none) := by
  have hr := createReader_reader archive keys (savedConfig lib h p info) error
  have e : (configuredInfo lib archive h keys p info error).reader =
      (match (createReader archive keys (savedConfig lib h p info) error).thrown with
        | some _ => none
        | none => (createReader archive keys (savedConfig lib h p info) error).reader) := by
    simp only [configuredInfo]
    generalize createReader archive keys (savedConfig lib h p info) error = r
    cases ht : r.thrown <;> simp
  rw [e, hr]
  rfl

end NcaProcess

namespace NcaProcess
open crypto.aes

theorem append_ne_empty (a b : String) (hb : 0 < b.length) : a ++ b ≠ "" := by
  intro h
  have hl : (a ++ b).length = 0 := by rw [h]; rfl
  rw [String.length_append] at hl
  omega

theorem createReader_thrown_ne_empty (archive : IFile) (keys : sKeys) (info : sPartitionInfo)
    (error e : String) (h : (createReader archive keys info error).thrown = some e) :
    e ≠ "" := by
  have k1 : ∀ x : String, x ++ "): UNKNOWN" ≠ "" := fun x => append_ne_empty _ _ (by decide)
  have k2 : ∀ x : String, x ++ "): UNSUPPORTED" ≠ "" :=
    fun x => append_ne_empty _ _ (by decide)
  have k3 : "AES-CTR Key was not determined" ≠ "" := by decide
  unfold createReader at h
  by_cases hf : info.format_type = nx.nca.FORMAT_PFS0 ∨ info.format_type = nx.nca.FORMAT_ROMFS
  · by_cases h1 : info.enc_type = nx.nca.CRYPT_NONE
    · by_cases hh : info.hash_type = nx.nca.HASH_HIERARCHICAL_SHA256 ∨
          info.hash_type = nx.nca.HASH_HIERARCHICAL_INTERGRITY
      · simp [hf, h1, hh] at h
      · by_cases hn : info.hash_type = nx.nca.HASH_NONE
        · simp [hf, h1, hh, hn] at h
        · simp [hf, h1, hh, hn] at h
          rw [← h]; exact k1 _
    · by_cases h2 : info.enc_type = nx.nca.CRYPT_AESCTR
      · by_cases hk : keys.aes_ctr.isSet = true
        · by_cases hh : info.hash_type = nx.nca.HASH_HIERARCHICAL_SHA256 ∨
              info.hash_type = nx.nca.HASH_HIERARCHICAL_INTERGRITY
          · simp [hf, h2, hk, hh] at h
          · by_cases hn : info.hash_type = nx.nca.HASH_NONE
            · simp [hf, h2, hk, hh, hn] at h
            · simp [hf, h2, hk, hh, hn] at h
              rw [← h]; exact k1 _
        · simp [hf, h2, hk] at h
          rw [← h]; exact k3
      · by_cases h3 : info.enc_type = nx.nca.CRYPT_AESXTS ∨
            info.enc_type = nx.nca.CRYPT_AESCTREX
        · simp [hf, h1, h2, h3] at h
          rw [← h]; exact k2 _
        · simp [hf, h1, h2, h3] at h
          rw [← h]; exact k1 _
  · simp [hf] at h
    rw [← h]; exact k1 _

theorem configuredInfo_fail_reason (lib : PartitionLib) (archive : IFile) (h : nx.sNcaFsHeader)
    (keys : sKeys) (p : nx.sPartition) (info : sPartitionInfo) (error : String)
    (hn : (configuredInfo lib archive h keys p info error).reader = none) :
    (configuredInfo lib archive h keys p info error).fail_reason ≠ "" := by
  have hne := createReader_thrown_ne_empty archive keys (savedConfig lib h p info) error
  have hrd : (createReader archive keys (savedConfig lib h p info) error).thrown = none →
      (createReader archive keys (savedConfig lib h p info) error).reader ≠ none := by
    intro ht
    unfold createReader at ht ⊢
    by_cases hf : (savedConfig lib h p info).format_type = nx.nca.FORMAT_PFS0 ∨
        (savedConfig lib h p info).format_type = nx.nca.FORMAT_ROMFS
    · by_cases h1 : (savedConfig lib h p info).enc_type = nx.nca.CRYPT_NONE
      · by_cases hh : (savedConfig lib h p info).hash_type = nx.nca.HASH_HIERARCHICAL_SHA256 ∨
            (savedConfig lib h p info).hash_type = nx.nca.HASH_HIERARCHICAL_INTERGRITY
        · simp [hf, h1, hh]
        · by_cases hn : (savedConfig lib h p info).hash_type = nx.nca.HASH_NONE
          · simp [hf, h1, hh, hn]
          · simp [hf, h1, hh, hn] at ht
      · by_cases h2 : (savedConfig lib h p info).enc_type = nx.nca.CRYPT_AESCTR
        · by_cases hk : keys.aes_ctr.isSet = true
          · by_cases hh : (savedConfig lib h p info).hash_type =
                nx.nca.HASH_HIERARCHICAL_SHA256 ∨
                (savedConfig lib h p info).hash_type = nx.nca.HASH_HIERARCHICAL_INTERGRITY
            · simp [hf, h2, hk, hh]
            · by_cases hn : (savedConfig lib h p info).hash_type = nx.nca.HASH_NONE
              · simp [hf, h2, hk, hh, hn]
              · simp [hf, h2, hk, hh, hn] at ht
          · simp [hf, h2, hk] at ht
        · by_cases h3 : (savedConfig lib h p info).enc_type = nx.nca.CRYPT_AESXTS ∨
              (savedConfig lib h p info).enc_type = nx.nca.CRYPT_AESCTREX
          · simp [hf, h1, h2, h3] at ht
          · simp [hf, h1, h2, h3] at ht
    · simp [hf] at ht
  simp only [configuredInfo] at hn ⊢
  generalize createReader archive keys (savedConfig lib h p info) error = r at hn hne hrd ⊢
  cases ht : r.thrown with
  | none =>
    simp [ht] at hn
    exact absurd hn (hrd ht)
  | some e =>
    simp only [ht]
    exact hne e ht

end NcaProcess

namespace NcaProcess
open crypto.aes

theorem mem_getPartitions (hdr : nx.NcaHeader) (p : nx.sPartition) :
    p ∈ hdr.getPartitions ↔
      ∃ e, hdr.partitionTable p.index = some e ∧ p = ⟨p.index, e.offset, e.size, e.hash⟩ := by
  unfold nx.NcaHeader.getPartitions
  rw [List.mem_filterMap]
  constructor
  · rintro ⟨i, _, hi⟩
    cases he : hdr.partitionTable i with
    | none => simp [he] at hi
    | some e =>
      simp [he] at hi
      subst hi
      exact ⟨e, he, rfl⟩
  · rintro ⟨e, he, hp⟩
    refine ⟨p.index, List.mem_finRange _, ?_⟩
    rw [he, hp]
    rfl

theorem getPartitions_index_nodup (hdr : nx.NcaHeader) :
    (hdr.getPartitions.map (fun p => p.index)).Nodup := by
  unfold nx.NcaHeader.getPartitions
  rw [List.map_filterMap]
  refine List.Nodup.filterMap ?_ (List.nodup_finRange _)
  intro a a' b hb hb'
  cases ha : hdr.partitionTable a with
  | none => simp [ha] at hb
  | some e =>
    cases ha' : hdr.partitionTable a' with
    | none => simp [ha'] at hb'
    | some e' =>
      simp [ha] at hb
      simp [ha'] at hb'
      rw [hb, hb']

theorem getPartitions_index_inj (hdr : nx.NcaHeader) (p q : nx.sPartition)
    (hp : p ∈ hdr.getPartitions) (hq : q ∈ hdr.getPartitions) (h : p.index = q.index) :
    p = q := by
  obtain ⟨e, he, hpe⟩ := (mem_getPartitions hdr p).1 hp
  obtain ⟨e', he', hqe⟩ := (mem_getPartitions hdr q).1 hq
  rw [h, he'] at he
  cases he
  rw [hpe, hqe, h]

theorem mem_getPartitions_withoutPartition (hdr : nx.NcaHeader)
    (i : Fin nx.nca.kPartitionNum) (q : nx.sPartition) :
    q ∈ (withoutPartition hdr i).getPartitions ↔ q ∈ hdr.getPartitions ∧ q.index ≠ i := by
  rw [mem_getPartitions, mem_getPartitions]
  unfold withoutPartition
  by_cases h : q.index = i
  · subst h
    simp
  · simp [h, Function.update_noteq h]

theorem configurePartitions_ok (lib : PartitionLib) (archive : IFile)
    (fs : Fin nx.nca.kPartitionNum → nx.sNcaFsHeader) (keys : sKeys) :
    ∀ (l : List nx.sPartition) (st : PartitionLoopState),
      (∀ p ∈ l, FsHeaderValid lib fs p) → (∀ p ∈ l, SuperblockImports lib (fs p.index)) →
      (l.map (fun p => p.index)).Nodup →
      ∃ st1, configurePartitions lib archive fs keys l st = Except.ok st1 ∧
        (∀ j, (∀ p ∈ l, p.index ≠ j) → st1.mPartitions j = st.mPartitions j) ∧
        (∀ p ∈ l, ∃ error, st1.mPartitions p.index =
          configuredInfo lib archive (fs p.index) keys p (st.mPartitions p.index) error) := by
  intro l
  induction l with
  | nil =>
    intro st _ _ _
    exact ⟨st, rfl, fun _ _ => rfl, fun p hp => absurd hp (List.not_mem_nil p)⟩
  | cons p l ih =>
    intro st hv hi hn
    have hvp : FsHeaderValid lib fs p := hv p (List.mem_cons_self _ _)
    have hip : SuperblockImports lib (fs p.index) := hi p (List.mem_cons_self _ _)
    rw [List.map_cons, List.nodup_cons] at hn
    obtain ⟨hpn, hln⟩ := hn
    have hpl : ∀ q ∈ l, q.index ≠ p.index := by
      intro q hq he
      exact hpn (List.mem_map.2 ⟨q, hq, he⟩)
    obtain ⟨st1, h1, h2, h3⟩ := ih
      ⟨(createReader archive keys
          (savedConfig lib (fs p.index) p (st.mPartitions p.index)) st.error).error,
        Function.update st.mPartitions p.index
          (configuredInfo lib archive (fs p.index) keys p (st.mPartitions p.index)
            st.error)⟩
      (fun q hq => hv q (List.mem_cons_of_mem _ hq))
      (fun q hq => hi q (List.mem_cons_of_mem _ hq)) hln
    refine ⟨st1, ?_, ?_, ?_⟩
    · simp only [configurePartitions, configurePartition_ok lib archive fs keys st p hvp hip]
      exact h1
    · intro j hj
      have hjp : j ≠ p.index := fun e => hj p (List.mem_cons_self _ _) e.symm
      rw [h2 j (fun q hq => hj q (List.mem_cons_of_mem _ hq))]
      exact Function.update_noteq hjp _ _
    · intro q hq
      rcases List.mem_cons.1 hq with rfl | hq
      · refine ⟨st.error, ?_⟩
        rw [h2 q.index (fun r hr => hpl r hr)]
        exact Function.update_same _ _ _
      · obtain ⟨err, he⟩ := h3 q hq
        refine ⟨err, ?_⟩
        rw [he]
        simp only []
        rw [Function.update_noteq (hpl q hq)]

theorem generatePartitionConfiguration_ok (lib : PartitionLib) (archive : IFile)
    (hdr : nx.NcaHeader) (fs : Fin nx.nca.kPartitionNum → nx.sNcaFsHeader) (keys : sKeys)
    (mp0 : Fin nx.nca.kPartitionNum → sPartitionInfo)
    (hv : ∀ p ∈ hdr.getPartitions, FsHeaderValid lib fs p)
    (hi : ∀ p ∈ hdr.getPartitions, SuperblockImports lib (fs p.index)) :
    ∃ mp, generatePartitionConfiguration lib archive hdr fs keys mp0 = Except.ok mp ∧
      (∀ j, (∀ p ∈ hdr.getPartitions, p.index ≠ j) → mp j = mp0 j) ∧
      (∀ p ∈ hdr.getPartitions, ∃ error, mp p.index =
        configuredInfo lib archive (fs p.index) keys p (mp0 p.index) error) := by
  obtain ⟨st1, h1, h2, h3⟩ := configurePartitions_ok lib archive fs keys hdr.getPartitions
    ⟨"", mp0⟩ hv hi (getPartitions_index_nodup hdr)
  refine ⟨st1.mPartitions, ?_, h2, h3⟩
  simp only [generatePartitionConfiguration, h1]

/-! ## Fatal fs-header errors -/

theorem configurePartition_error (lib : PartitionLib) (archive : IFile)
    (fs : Fin nx.nca.kPartitionNum → nx.sNcaFsHeader) (keys : sKeys)
    (st : PartitionLoopState) (p : nx.sPartition)
    (h : lib.Sha256 (fs p.index) ≠ p.hash ∨
      (fs p.index).version ≠ nx.nca.kDefaultFsHeaderVersion) :
    ∃ e, configurePartition lib archive fs keys st p = Except.error e := by
  unfold configurePartition
  by_cases h1 : lib.Sha256 (fs p.index) = p.hash
  · have h2 : (fs p.index).version ≠ nx.nca.kDefaultFsHeaderVersion := by
      rcases h with h | h
      · exact absurd h1 h
      · exact h
    simp only [h1, ne_eq, not_true_eq_false, if_false]
    rw [if_pos h2]
    exact ⟨_, rfl⟩
  · simp only [ne_eq]
    rw [if_pos h1]
    exact ⟨_, rfl⟩

theorem configurePartitions_error (lib : PartitionLib) (archive : IFile)
    (fs : Fin nx.nca.kPartitionNum → nx.sNcaFsHeader) (keys : sKeys) :
    ∀ (l : List nx.sPartition) (st : PartitionLoopState),
      (∃ p ∈ l, lib.Sha256 (fs p.index) ≠ p.hash ∨
        (fs p.index).version ≠ nx.nca.kDefaultFsHeaderVersion) →
      ∃ e, configurePartitions lib archive fs keys l st = Except.error e := by
  intro l
  induction l with
  | nil =>
    rintro st ⟨p, hp, _⟩
    exact absurd hp (List.not_mem_nil p)
  | cons q l ih =>
    rintro st ⟨p, hp, hbad⟩
    simp only [configurePartitions]
    cases hq : configurePartition lib archive fs keys st q with
    | error e => exact ⟨e, rfl⟩
    | ok st1 =>
      simp only []
      rcases List.mem_cons.1 hp with rfl | hpl
      · obtain ⟨e, he⟩ := configurePartition_error lib archive fs keys st p hbad
        rw [he] at hq
        cases hq
      · exact ih st1 ⟨p, hpl, hbad⟩

theorem generatePartitionConfiguration_error (lib : PartitionLib) (archive : IFile)
    (hdr : nx.NcaHeader) (fs : Fin nx.nca.kPartitionNum → nx.sNcaFsHeader) (keys : sKeys)
    (mp0 : Fin nx.nca.kPartitionNum → sPartitionInfo)
    (h : ∃ p ∈ hdr.getPartitions, lib.Sha256 (fs p.index) ≠ p.hash ∨
      (fs p.index).version ≠ nx.nca.kDefaultFsHeaderVersion) :
    ∃ e, generatePartitionConfiguration lib archive hdr fs keys mp0 = Except.error e := by
  obtain ⟨e, he⟩ := configurePartitions_error lib archive fs keys hdr.getPartitions
    ⟨"", mp0⟩ h
  exact ⟨e, by simp only [generatePartitionConfiguration, he]⟩

/-! ## Fatal superblock import errors -/

theorem configurePartition_import_error (lib : PartitionLib) (archive : IFile)
    (fs : Fin nx.nca.kPartitionNum → nx.sNcaFsHeader) (keys : sKeys)
    (st : PartitionLoopState) (p : nx.sPartition)
    (h : ¬ SuperblockImports lib (fs p.index)) :
    ∃ e, configurePartition lib archive fs keys st p = Except.error e := by
  by_cases hv : FsHeaderValid lib fs p
  · rw [configurePartition_valid lib archive fs keys st p hv]
    obtain ⟨e, he⟩ := importSuperblock_error lib (fs p.index)
      (st.mPartitions p.index).hash_tree_meta h
    rw [he]
    exact ⟨e, rfl⟩
  · apply configurePartition_error
    unfold FsHeaderValid at hv
    by_cases h1 : lib.Sha256 (fs p.index) = p.hash
    · exact Or.inr (fun h2 => hv ⟨h1, h2⟩)
    · exact Or.inl h1

theorem configurePartitions_import_error (lib : PartitionLib) (archive : IFile)
    (fs : Fin nx.nca.kPartitionNum → nx.sNcaFsHeader) (keys : sKeys) :
    ∀ (l : List nx.sPartition) (st : PartitionLoopState),
      (∃ p ∈ l, ¬ SuperblockImports lib (fs p.index)) →
      ∃ e, configurePartitions lib archive fs keys l st = Except.error e := by
  intro l
  induction l with
  | nil =>
    rintro st ⟨p, hp, _⟩
    exact absurd hp (List.not_mem_nil p)
  | cons q l ih =>
    rintro st ⟨p, hp, hbad⟩
    simp only [configurePartitions]
    cases hq : configurePartition lib archive fs keys st q with
    | error e => exact ⟨e, rfl⟩
    | ok st1 =>
      simp only []
      rcases List.mem_cons.1 hp with rfl | hpl
      · obtain ⟨e, he⟩ := configurePartition_import_error lib archive fs keys st p hbad
        rw [he] at hq
        cases hq
      · exact ih st1 ⟨p, hpl, hbad⟩

/-- `generatePartitionConfiguration` returns normally exactly when the fs-header checks pass
and the superblock import does not throw, for every listed partition. -/
theorem generatePartitionConfiguration_returns_iff (lib : PartitionLib) (archive : IFile)
    (hdr : nx.NcaHeader) (fs : Fin nx.nca.kPartitionNum → nx.sNcaFsHeader) (keys : sKeys)
    (mp0 : Fin nx.nca.kPartitionNum → sPartitionInfo) :
    (∃ mp, generatePartitionConfiguration lib archive hdr fs keys mp0 = Except.ok mp) ↔
      ∀ p ∈ hdr.getPartitions, FsHeaderValid lib fs p ∧ SuperblockImports lib (fs p.index) := by
  constructor
  · rintro ⟨mp, hmp⟩ p hp
    refine ⟨?_, ?_⟩
    · by_contra hv
      have hbad : lib.Sha256 (fs p.index) ≠ p.hash ∨
          (fs p.index).version ≠ nx.nca.kDefaultFsHeaderVersion := by
        unfold FsHeaderValid at hv
        by_cases h1 : lib.Sha256 (fs p.index) = p.hash
        · exact Or.inr (fun h2 => hv ⟨h1, h2⟩)
        · exact Or.inl h1
      obtain ⟨e, he⟩ := generatePartitionConfiguration_error lib archive hdr fs keys mp0
        ⟨p, hp, hbad⟩
      rw [he] at hmp
      cases hmp
    · by_contra hi
      obtain ⟨e, he⟩ := configurePartitions_import_error lib archive fs keys
        hdr.getPartitions ⟨"", mp0⟩ ⟨p, hp, hi⟩
      simp only [generatePartitionConfiguration, he] at hmp
      cases hmp
  · intro h
    obtain ⟨mp, hmp, _⟩ := generatePartitionConfiguration_ok lib archive hdr fs keys mp0
      (fun p hp => (h p hp).1) (fun p hp => (h p hp).2)
    exact ⟨mp, hmp⟩

end NcaProcess

namespace NcaProcess
open crypto.aes

/-! ## C10: failure reasons -/

/-- C10 fails on the code: the string stream `error` is never emptied, so the failure
reason recorded for the AES-XTS partition in slot 1 starts with the failure message of slot
0 when slot 0 failed before it, and is the plain message when slot 0 was assembled. -/
theorem fail_reason_depends_on_earlier_failures :
    (Sample.fsUnknownThenXts 1 = Sample.fsPlainThenXts 1) ∧
    (slotAfter (generatePartitionConfiguration Sample.partitionLib Sample.archive
        (Sample.headerFor 4 Sample.fsUnknownThenXts) Sample.fsUnknownThenXts sKeys.init
        Sample.mPartitions0) 1).map (fun info => info.fail_reason) =
      some "FormatType(5): UNKNOWNEncryptionType(AesXts): UNSUPPORTED" ∧
    (slotAfter (generatePartitionConfiguration Sample.partitionLib Sample.archive
        (Sample.headerFor 4 Sample.fsPlainThenXts) Sample.fsPlainThenXts sKeys.init
        Sample.mPartitions0) 1).map (fun info => info.fail_reason) =
      some "EncryptionType(AesXts): UNSUPPORTED" := by
  decide

end NcaProcess

namespace NcaProcess
open crypto.aes

/-! ## C5: partition-level failures are not fatal -/

theorem configuredInfo_reader_of_fails (lib : PartitionLib) (archive : IFile)
    (h : nx.sNcaFsHeader) (keys : sKeys) (p : nx.sPartition) (info : sPartitionInfo)
    (error : String) (hf : PartitionFails h keys) :
    (configuredInfo lib archive h keys p info error).reader = none := by
  rw [configuredInfo_reader]
  unfold PartitionFails at hf
  unfold encryptionReader
  rcases hf with hf | hf | hf | hf | hf | hf
  · rw [if_neg hf]
  · split_ifs <;> simp_all
  · split_ifs <;> simp_all
  · split_ifs <;> simp_all
  · split_ifs <;> simp_all
  · split_ifs <;> first | rfl | tauto

/-- C5, as stated, fails: every listed partition has a valid fs-header hash and version and
slot 1 uses AES-XTS, a partition-level failure, but the HierarchicalIntegrity superblock of
slot 0 lacks its magic; the importer called at line 382, before the try block, throws, and
the exception leaves `generatePartitionConfiguration`. -/
theorem superblock_import_failure_is_fatal_counterexample :
    (∀ p ∈ (Sample.headerFor 4 Sample.fsBadSuperblock).getPartitions,
      Sample.partitionLib.Sha256 (Sample.fsBadSuperblock p.index) = p.hash ∧
        (Sample.fsBadSuperblock p.index).version = nx.nca.kDefaultFsHeaderVersion) ∧
    (Sample.fsBadSuperblock 1).encryption_type = nx.nca.CRYPT_AESXTS ∧
    thrownBy (generatePartitionConfiguration Sample.partitionLib Sample.archive
      (Sample.headerFor 4 Sample.fsBadSuperblock) Sample.fsBadSuperblock sKeys.init
      Sample.mPartitions0) = some "HierarchicalIntegrity header: invalid struct magic" := by
  decide

/-- C5 (amended): when the fs-header hash and version of every listed partition are valid
and the hash superblock of every listed partition with a hierarchical hash type imports
without an exception, `generatePartitionConfiguration` returns normally; every listed
partition with an unknown format type, with AES-CTR encryption but no body CTR key, with
AES-XTS, AES-CTR-EX or unknown encryption, or with an unknown hash type ends with a null
reader and a non-empty failure reason; and every other listed partition has the reader that
it has when the call is made on the header without the failing partition. -/
theorem partition_failures_are_not_fatal (lib : PartitionLib) (archive : IFile)
    (hdr : nx.NcaHeader) (fs : Fin nx.nca.kPartitionNum → nx.sNcaFsHeader) (keys : sKeys)
    (mp0 : Fin nx.nca.kPartitionNum → sPartitionInfo)
    (hv : ∀ p ∈ hdr.getPartitions,
      lib.Sha256 (fs p.index) = p.hash ∧
        (fs p.index).version = nx.nca.kDefaultFsHeaderVersion)
    (hi : ∀ p ∈ hdr.getPartitions,
      ((fs p.index).hash_type = nx.nca.HASH_HIERARCHICAL_SHA256 →
        (lib.importHierarchicalSha256Header (fs p.index).hash_superblock).isOk = true) ∧
      ((fs p.index).hash_type = nx.nca.HASH_HIERARCHICAL_INTERGRITY →
        (lib.importHierarchicalIntergityHeader (fs p.index).hash_superblock).isOk = true)) :
    ∃ mp, generatePartitionConfiguration lib archive hdr fs keys mp0 = Except.ok mp ∧
      ∀ p ∈ hdr.getPartitions, PartitionFails (fs p.index) keys →
        (mp p.index).reader = none ∧ (mp p.index).fail_reason ≠ "" ∧
        ∃ mp1, generatePartitionConfiguration lib archive (withoutPartition hdr p.index) fs
            keys mp0 = Except.ok mp1 ∧
          ∀ q ∈ hdr.getPartitions, q ≠ p → (mp1 q.index).reader = (mp q.index).reader := by
  obtain ⟨mp, h1, _, h3⟩ := generatePartitionConfiguration_ok lib archive hdr fs keys mp0 hv hi
  refine ⟨mp, h1, ?_⟩
  intro p hp hf
  obtain ⟨err, he⟩ := h3 p hp
  have hrd : (mp p.index).reader = none := by
    rw [he]; exact configuredInfo_reader_of_fails lib archive _ keys p _ err hf
  refine ⟨hrd, ?_, ?_⟩
  · rw [he]
    apply configuredInfo_fail_reason
    rw [← he]; exact hrd
  · have hv1 : ∀ q ∈ (withoutPartition hdr p.index).getPartitions, FsHeaderValid lib fs q :=
      fun q hq => hv q ((mem_getPartitions_withoutPartition hdr p.index q).1 hq).1
    have hi1 : ∀ q ∈ (withoutPartition hdr p.index).getPartitions,
        SuperblockImports lib (fs q.index) :=
      fun q hq => hi q ((mem_getPartitions_withoutPartition hdr p.index q).1 hq).1
    obtain ⟨mp1, k1, _, k3⟩ := generatePartitionConfiguration_ok lib archive
      (withoutPartition hdr p.index) fs keys mp0 hv1 hi1
    refine ⟨mp1, k1, ?_⟩
    intro q hq hqp
    have hqi : q.index ≠ p.index := fun e => hqp (getPartitions_index_inj hdr q p hq hp e)
    obtain ⟨e1, he1⟩ := k3 q ((mem_getPartitions_withoutPartition hdr p.index q).2 ⟨hq, hqi⟩)
    obtain ⟨e2, he2⟩ := h3 q hq
    rw [he1, he2, configuredInfo_reader, configuredInfo_reader]

/-- Witness for `partition_failures_are_not_fatal`: slot 0 has hash type
HierarchicalIntegrity with a superblock that imports, slot 1 uses AES-XTS; both entries carry
the digest of their fs header. -/
theorem partition_failures_are_not_fatal_witness :
    (∀ p ∈ (Sample.headerFor 4 Sample.fsIntegrityThenXts).getPartitions,
      Sample.partitionLib.Sha256 (Sample.fsIntegrityThenXts p.index) = p.hash ∧
        (Sample.fsIntegrityThenXts p.index).version = nx.nca.kDefaultFsHeaderVersion) ∧
    (∀ p ∈ (Sample.headerFor 4 Sample.fsIntegrityThenXts).getPartitions,
      ((Sample.fsIntegrityThenXts p.index).hash_type = nx.nca.HASH_HIERARCHICAL_SHA256 →
        (Sample.partitionLib.importHierarchicalSha256Header
          (Sample.fsIntegrityThenXts p.index).hash_superblock).isOk = true) ∧
      ((Sample.fsIntegrityThenXts p.index).hash_type = nx.nca.HASH_HIERARCHICAL_INTERGRITY →
        (Sample.partitionLib.importHierarchicalIntergityHeader
          (Sample.fsIntegrityThenXts p.index).hash_superblock).isOk = true)) ∧
    ∃ mp, generatePartitionConfiguration Sample.partitionLib Sample.archive
      (Sample.headerFor 4 Sample.fsIntegrityThenXts) Sample.fsIntegrityThenXts sKeys.init
      Sample.mPartitions0 = Except.ok mp :=
  ⟨by decide, by decide,
    (partition_failures_are_not_fatal Sample.partitionLib Sample.archive
      (Sample.headerFor 4 Sample.fsIntegrityThenXts) Sample.fsIntegrityThenXts sKeys.init
      Sample.mPartitions0 (by decide) (by decide)).imp (fun _ h => h.1)⟩

end NcaProcess

namespace NcaProcess
open crypto.aes

/-! ## C6: shape of the reader chain -/

/-- C6, as stated, fails: partition 0 passes the fs-header checks, has format PartitionFs,
encryption None and hash type HierarchicalIntegrity, but its superblock lacks the magic; the
importer called at line 382 throws, `generatePartitionConfiguration` ends with that
exception, and no hash-tree reader is built for the partition. -/
theorem superblock_import_failure_builds_no_reader_counterexample :
    (∀ p ∈ (Sample.headerFor 4 Sample.fsBadSuperblock).getPartitions,
      Sample.partitionLib.Sha256 (Sample.fsBadSuperblock p.index) = p.hash ∧
        (Sample.fsBadSuperblock p.index).version = nx.nca.kDefaultFsHeaderVersion) ∧
    (Sample.fsBadSuperblock 0).format_type = nx.nca.FORMAT_PFS0 ∧
    (Sample.fsBadSuperblock 0).encryption_type = nx.nca.CRYPT_NONE ∧
    (Sample.fsBadSuperblock 0).hash_type = nx.nca.HASH_HIERARCHICAL_INTERGRITY ∧
    slotAfter (generatePartitionConfiguration Sample.partitionLib Sample.archive
      (Sample.headerFor 4 Sample.fsBadSuperblock) Sample.fsBadSuperblock sKeys.init
      Sample.mPartitions0) 0 = none ∧
    thrownBy (generatePartitionConfiguration Sample.partitionLib Sample.archive
      (Sample.headerFor 4 Sample.fsBadSuperblock) Sample.fsBadSuperblock sKeys.init
      Sample.mPartitions0) = some "HierarchicalIntegrity header: invalid struct magic" := by
  decide

/-- C6 (amended): when the fs-header checks pass for every listed partition and the hash
superblock of every listed partition with a hierarchical hash type imports without an
exception, each listed partition of format PartitionFs or RomFs whose encryption is None, or
AesCtr with the body CTR key set, has as inner reader `base` the offset slice of the archive,
respectively the offset slice of the AES-CTR stream over the archive keyed with the body CTR
key and the counter block of the fs header.  Its reader is the hash-tree stream over `base`
with the imported hash-tree meta when the hash type is HierarchicalSha256 or
HierarchicalIntegrity, it is `base` itself when the hash type is None, and it is a hash-tree
stream exactly for the two hierarchical types. -/
theorem reader_chain_shape (lib : PartitionLib) (archive : IFile)
    (hdr : nx.NcaHeader) (fs : Fin nx.nca.kPartitionNum → nx.sNcaFsHeader) (keys : sKeys)
    (mp0 : Fin nx.nca.kPartitionNum → sPartitionInfo)
    (hv : ∀ p ∈ hdr.getPartitions,
      lib.Sha256 (fs p.index) = p.hash ∧
        (fs p.index).version = nx.nca.kDefaultFsHeaderVersion)
    (hi : ∀ p ∈ hdr.getPartitions,
      ((fs p.index).hash_type = nx.nca.HASH_HIERARCHICAL_SHA256 →
        (lib.importHierarchicalSha256Header (fs p.index).hash_superblock).isOk = true) ∧
      ((fs p.index).hash_type = nx.nca.HASH_HIERARCHICAL_INTERGRITY →
        (lib.importHierarchicalIntergityHeader (fs p.index).hash_superblock).isOk = true)) :
    ∃ mp, generatePartitionConfiguration lib archive hdr fs keys mp0 = Except.ok mp ∧
      ∀ p ∈ hdr.getPartitions,
        ((fs p.index).format_type = nx.nca.FORMAT_PFS0 ∨
          (fs p.index).format_type = nx.nca.FORMAT_ROMFS) →
        ∀ base : IFile,
          (((fs p.index).encryption_type = nx.nca.CRYPT_NONE ∧
              base = IFile.OffsetAdjustedIFile archive p.offset p.size) ∨
            ((fs p.index).encryption_type = nx.nca.CRYPT_AESCTR ∧
              keys.aes_ctr.isSet = true ∧
              base = IFile.OffsetAdjustedIFile
                (IFile.AesCtrWrappedIFile archive keys.aes_ctr.var
                  (lib.getNcaPartitionAesCtr (fs p.index))) p.offset p.size)) →
          ((fs p.index).hash_type = nx.nca.HASH_HIERARCHICAL_SHA256 →
            ∃ hashMeta,
              lib.importHierarchicalSha256Header (fs p.index).hash_superblock =
                Except.ok hashMeta ∧
              (mp p.index).reader = some (IFile.HashTreeWrappedIFile base hashMeta)) ∧
          ((fs p.index).hash_type = nx.nca.HASH_HIERARCHICAL_INTERGRITY →
            ∃ hashMeta,
              lib.importHierarchicalIntergityHeader (fs p.index).hash_superblock =
                Except.ok hashMeta ∧
              (mp p.index).reader = some (IFile.HashTreeWrappedIFile base hashMeta)) ∧
          ((fs p.index).hash_type = nx.nca.HASH_NONE → (mp p.index).reader = some base) ∧
          ((∃ inner hashMeta,
              (mp p.index).reader = some (IFile.HashTreeWrappedIFile inner hashMeta)) ↔
            ((fs p.index).hash_type = nx.nca.HASH_HIERARCHICAL_SHA256 ∨
              (fs p.index).hash_type = nx.nca.HASH_HIERARCHICAL_INTERGRITY)) := by
  obtain ⟨mp, h1, _, h3⟩ := generatePartitionConfiguration_ok lib archive hdr fs keys mp0 hv hi
  refine ⟨mp, h1, ?_⟩
  intro p hp hfmt base hbase
  obtain ⟨err, he⟩ := h3 p hp
  have henc : encryptionReader archive keys (lib.getNcaPartitionAesCtr (fs p.index))
      p.offset p.size (fs p.index).encryption_type = some base := by
    unfold encryptionReader
    rcases hbase with ⟨h, rfl⟩ | ⟨h, hk, rfl⟩
    · simp [h]
    · simp [h, hk]
  rw [he, configuredInfo_reader, if_pos hfmt, henc]
  simp only [savedConfig, importSuperblock]
  refine ⟨?_, ?_, ?_, ?_⟩
  · intro hh
    have hok := (hi p hp).1 hh
    cases hr : lib.importHierarchicalSha256Header (fs p.index).hash_superblock with
    | error e => rw [hr] at hok; cases hok
    | ok m => exact ⟨m, rfl, by simp [hh, hr]⟩
  · intro hh
    have hok := (hi p hp).2 hh
    cases hr : lib.importHierarchicalIntergityHeader (fs p.index).hash_superblock with
    | error e => rw [hr] at hok; cases hok
    | ok m => exact ⟨m, rfl, by simp [hh, hr]⟩
  · intro hh
    simp [hh]
  · constructor
    · rintro ⟨inner, m, hm⟩
      by_contra hc
      rw [if_neg hc] at hm
      by_cases hn : (fs p.index).hash_type = nx.nca.HASH_NONE
      · rw [if_pos hn] at hm
        rcases hbase with ⟨_, rfl⟩ | ⟨_, _, rfl⟩ <;> simp at hm
      · rw [if_neg hn] at hm
        simp at hm
    · intro hh
      rw [if_pos hh]
      exact ⟨_, _, rfl⟩

/-- Witness for `reader_chain_shape`: slot 0 is an unencrypted PartitionFs partition with
hash type HierarchicalIntegrity whose superblock imports, slot 1 a PartitionFs partition with
AES-XTS encryption; both entries carry the digest of their fs header. -/
theorem reader_chain_shape_witness :
    (∀ p ∈ (Sample.headerFor 4 Sample.fsIntegrityThenXts).getPartitions,
      Sample.partitionLib.Sha256 (Sample.fsIntegrityThenXts p.index) = p.hash ∧
        (Sample.fsIntegrityThenXts p.index).version = nx.nca.kDefaultFsHeaderVersion) ∧
    (∀ p ∈ (Sample.headerFor 4 Sample.fsIntegrityThenXts).getPartitions,
      ((Sample.fsIntegrityThenXts p.index).hash_type = nx.nca.HASH_HIERARCHICAL_SHA256 →
        (Sample.partitionLib.importHierarchicalSha256Header
          (Sample.fsIntegrityThenXts p.index).hash_superblock).isOk = true) ∧
      ((Sample.fsIntegrityThenXts p.index).hash_type = nx.nca.HASH_HIERARCHICAL_INTERGRITY →
        (Sample.partitionLib.importHierarchicalIntergityHeader
          (Sample.fsIntegrityThenXts p.index).hash_superblock).isOk = true)) ∧
    ∃ mp, generatePartitionConfiguration Sample.partitionLib Sample.archive
      (Sample.headerFor 4 Sample.fsIntegrityThenXts) Sample.fsIntegrityThenXts sKeys.init
      Sample.mPartitions0 = Except.ok mp :=
  ⟨by decide, by decide,
    (reader_chain_shape Sample.partitionLib Sample.archive
      (Sample.headerFor 4 Sample.fsIntegrityThenXts) Sample.fsIntegrityThenXts sKeys.init
      Sample.mPartitions0 (by decide) (by decide)).imp (fun _ h => h.1)⟩

/-- On the sample of the witness the reader of partition 0 is the hash-tree stream over the
offset slice of the archive. -/
theorem reader_chain_shape_sample :
    (slotAfter (generatePartitionConfiguration Sample.partitionLib Sample.archive
      (Sample.headerFor 4 Sample.fsIntegrityThenXts) Sample.fsIntegrityThenXts sKeys.init
      Sample.mPartitions0) 0).map (fun info => info.reader) =
      some (some (IFile.HashTreeWrappedIFile
        (IFile.OffsetAdjustedIFile Sample.archive 0xc00 0x200)
        ⟨[List.replicate 32 7], [], ⟨0, 0, 0⟩, false⟩)) := by
  decide

end NcaProcess

namespace NcaProcess
open crypto.aes

/-! ## Signature validation -/

theorem printWarning_eq (cli : CliOutputType) (text : String) :
    printWarning cli text = [OutputItem.printf text] := by
  unfold printWarning
  rw [if_pos]
  exact Nat.zero_le _

/-- The output of the check of signature 1: the main-signature warning or nothing. -/
theorem validateNcaSignatures_not_program (lib : Collaborators) (self : State)
    (h : self.mHdr.contentType ≠ nx.nca.TYPE_PROGRAM) :
    validateNcaSignatures lib self =
      ⟨if lib.rsaVerify self.mKeyset.nca.header_sign_key self.mHdrHash
          self.mHdrBlock.signature_main ≠ 0 then [OutputItem.printf warnMainSignature]
        else [], Outcome.returned⟩ := by
  unfold validateNcaSignatures
  simp only [printWarning_eq]
  rw [if_neg h]

end NcaProcess

namespace NcaProcess
open crypto.aes

theorem warnings_distinct :
    warnMainSignature ≠ warnAcidSignature ∧ warnMainSignature ≠ warnNpdmMissing ∧
    warnMainSignature ≠ warnExefsUnreadable ∧ warnMainSignature ≠ warnNoExefs ∧
    warnAcidSignature ≠ warnNpdmMissing ∧ warnAcidSignature ≠ warnExefsUnreadable ∧
    warnAcidSignature ≠ warnNoExefs ∧ warnNpdmMissing ≠ warnExefsUnreadable ∧
    warnNpdmMissing ≠ warnNoExefs ∧ warnExefsUnreadable ≠ warnNoExefs := by
  decide

/-- Closed form of `validateNcaSignatures` for content type Program. -/
theorem validateNcaSignatures_program (lib : Collaborators) (self : State)
    (h : self.mHdr.contentType = nx.nca.TYPE_PROGRAM) :
    validateNcaSignatures lib self =
      (let out0 : List OutputItem :=
        if lib.rsaVerify self.mKeyset.nca.header_sign_key self.mHdrHash
            self.mHdrBlock.signature_main ≠ 0 then [OutputItem.printf warnMainSignature]
        else []
      if (self.mPartitions nx.nca.PARTITION_CODE).format_type = nx.nca.FORMAT_PFS0 then
        match (self.mPartitions nx.nca.PARTITION_CODE).reader with
        | some reader =>
          let exefs := lib.pfsProcess (exefsConfig reader)
          let out1 := out0 ++ [OutputItem.collaborator "PfsProcess" exefs.output]
          match exefs.exception with
          | some e => ⟨out1, Outcome.threw e⟩
          | none =>
            match findNpdm exefs.fileList with
            | some file =>
              let npdm := lib.npdmProcess (npdmConfig reader file)
              let out2 := out1 ++ [OutputItem.collaborator "NpdmProcess" npdm.output]
              match npdm.exception with
              | some e => ⟨out2, Outcome.threw e⟩
              | none =>
                if lib.rsaVerify npdm.ncaHeader2RsaKey self.mHdrHash
                    self.mHdrBlock.signature_acid ≠ 0 then
                  ⟨out2 ++ [OutputItem.printf warnAcidSignature], Outcome.returned⟩
                else ⟨out2, Outcome.returned⟩
            | none => ⟨out1 ++ [OutputItem.printf warnNpdmMissing], Outcome.returned⟩
        | none => ⟨out0 ++ [OutputItem.printf warnExefsUnreadable], Outcome.returned⟩
      else ⟨out0 ++ [OutputItem.printf warnNoExefs], Outcome.returned⟩) := by
  unfold validateNcaSignatures
  simp only [printWarning_eq]
  rw [if_pos h]

/-- The decision table of signature 2 in terms of the named settings `exefsConfig` and
`npdmConfig`, the lookup `findNpdm` and the named warnings. -/
theorem signature2_outcomes (lib : Collaborators) (self : State) :
    (self.mHdr.contentType ≠ nx.nca.TYPE_PROGRAM →
      (∀ name lines,
        OutputItem.collaborator name lines ∉ (validateNcaSignatures lib self).output) ∧
      OutputItem.printf warnAcidSignature ∉ (validateNcaSignatures lib self).output ∧
      OutputItem.printf warnNpdmMissing ∉ (validateNcaSignatures lib self).output ∧
      OutputItem.printf warnExefsUnreadable ∉ (validateNcaSignatures lib self).output ∧
      OutputItem.printf warnNoExefs ∉ (validateNcaSignatures lib self).output) ∧
    (self.mHdr.contentType = nx.nca.TYPE_PROGRAM →
      (OutputItem.printf warnNoExefs ∈ (validateNcaSignatures lib self).output ↔
        (self.mPartitions nx.nca.PARTITION_CODE).format_type ≠ nx.nca.FORMAT_PFS0) ∧
      (OutputItem.printf warnExefsUnreadable ∈ (validateNcaSignatures lib self).output ↔
        (self.mPartitions nx.nca.PARTITION_CODE).format_type = nx.nca.FORMAT_PFS0 ∧
          (self.mPartitions nx.nca.PARTITION_CODE).reader = none) ∧
      (OutputItem.printf warnNpdmMissing ∈ (validateNcaSignatures lib self).output ↔
        (self.mPartitions nx.nca.PARTITION_CODE).format_type = nx.nca.FORMAT_PFS0 ∧
          ∃ reader, (self.mPartitions nx.nca.PARTITION_CODE).reader = some reader ∧
            (lib.pfsProcess (exefsConfig reader)).exception = none ∧
            ∀ f ∈ (lib.pfsProcess (exefsConfig reader)).fileList, f.name ≠ "main.npdm") ∧
      (OutputItem.printf warnAcidSignature ∈ (validateNcaSignatures lib self).output ↔
        (self.mPartitions nx.nca.PARTITION_CODE).format_type = nx.nca.FORMAT_PFS0 ∧
          ∃ reader file, (self.mPartitions nx.nca.PARTITION_CODE).reader = some reader ∧
            (lib.pfsProcess (exefsConfig reader)).exception = none ∧
            findNpdm (lib.pfsProcess (exefsConfig reader)).fileList = some file ∧
            file.name = "main.npdm" ∧
            (lib.npdmProcess (npdmConfig reader file)).exception = none ∧
            lib.rsaVerify (lib.npdmProcess (npdmConfig reader file)).ncaHeader2RsaKey
              self.mHdrHash self.mHdrBlock.signature_acid ≠ 0)) := by
  obtain ⟨d1, d2, d3, d4, d5, d6, d7, d8, d9, d10⟩ := warnings_distinct
  have e1 := d1.symm
  have e2 := d2.symm
  have e3 := d3.symm
  have e4 := d4.symm
  have e5 := d5.symm
  have e6 := d6.symm
  have e7 := d7.symm
  have e8 := d8.symm
  have e9 := d9.symm
  have e10 := d10.symm
  have hfind : ∀ l : List nx.PfsHeader.sFile,
      findNpdm l = none ↔ ∀ f ∈ l, f.name ≠ "main.npdm" := by
    intro l
    simp [findNpdm, kNpdmExefsPath, d1, d2, d3, d4, d5, d6, d7, d8, d9, d10, e1, e2, e3, e4, e5, e6, e7, e8, e9, e10]
  have hname : ∀ (l : List nx.PfsHeader.sFile) (f : nx.PfsHeader.sFile),
      findNpdm l = some f → f.name = "main.npdm" := by
    intro l f hf
    have := List.find?_some hf
    simpa [kNpdmExefsPath] using this
  refine ⟨fun h => ?_, fun h => ?_⟩
  · rw [validateNcaSignatures_not_program lib self h]
    refine ⟨?_, ?_, ?_, ?_, ?_⟩ <;> (try intro name lines) <;> split_ifs <;>
      simp [d1, d2, d3, d4, d5, d6, d7, d8, d9, d10, e1, e2, e3, e4, e5, e6, e7, e8, e9, e10]
  · rw [validateNcaSignatures_program lib self h]
    simp only []
    by_cases hf : (self.mPartitions nx.nca.PARTITION_CODE).format_type = nx.nca.FORMAT_PFS0
    · rw [if_pos hf]
      cases hr : (self.mPartitions nx.nca.PARTITION_CODE).reader with
      | none =>
        simp only []
        refine ⟨?_, ?_, ?_, ?_⟩ <;> split_ifs <;>
          simp [hf, d1, d2, d3, d4, d5, d6, d7, d8, d9, d10, e1, e2, e3, e4, e5, e6, e7, e8, e9, e10]
      | some r =>
        simp only []
        cases hx : (lib.pfsProcess (exefsConfig r)).exception with
        | some e =>
          simp only []
          refine ⟨?_, ?_, ?_, ?_⟩ <;> split_ifs <;>
            simp [hf, hx, d1, d2, d3, d4, d5, d6, d7, d8, d9, d10, e1, e2, e3, e4, e5, e6, e7, e8, e9, e10]
        | none =>
          simp only []
          cases hn : findNpdm (lib.pfsProcess (exefsConfig r)).fileList with
          | none =>
            simp only []
            have hn2 := (hfind _).1 hn
            refine ⟨?_, ?_, ?_, ?_⟩ <;> split_ifs <;>
              simp [hf, hx, hn, hn2, d1, d2, d3, d4, d5, d6, d7, d8, d9, d10, e1, e2, e3, e4, e5, e6, e7, e8, e9, e10]
            all_goals exact hn2
          | some file =>
            simp only []
            have hn3 := hname _ _ hn
            have hn2 : ∃ x ∈ (lib.pfsProcess (exefsConfig r)).fileList,
                x.name = "main.npdm" :=
              ⟨file, List.mem_of_find?_eq_some hn, hn3⟩
            cases hm : (lib.npdmProcess (npdmConfig r file)).exception with
            | some e =>
              simp only []
              refine ⟨?_, ?_, ?_, ?_⟩ <;> split_ifs <;>
                simp [hf, hx, hn, hm, d1, d2, d3, d4, d5, d6, d7, d8, d9, d10, e1, e2, e3, e4, e5, e6, e7, e8, e9, e10]
              all_goals exact hn2
            | none =>
              simp only []
              by_cases hv : lib.rsaVerify
                  (lib.npdmProcess (npdmConfig r file)).ncaHeader2RsaKey self.mHdrHash
                  self.mHdrBlock.signature_acid = 0
              · refine ⟨?_, ?_, ?_, ?_⟩ <;> split_ifs <;>
                  simp [hf, hx, hn, hm, hv, d1, d2, d3, d4, d5, d6, d7, d8, d9, d10, e1, e2, e3, e4, e5, e6, e7, e8, e9, e10]
                all_goals first | exact hn2 | contradiction
              · refine ⟨?_, ?_, ?_, ?_⟩ <;> split_ifs <;>
                  simp [hf, hx, hn, hm, hv, hn3, d1, d2, d3, d4, d5, d6, d7, d8, d9, d10, e1, e2, e3, e4, e5, e6, e7, e8, e9, e10]
                all_goals exact hn2
    · rw [if_neg hf]
      refine ⟨?_, ?_, ?_, ?_⟩ <;> split_ifs <;>
        simp [hf, d1, d2, d3, d4, d5, d6, d7, d8, d9, d10, e1, e2, e3, e4, e5, e6, e7, e8, e9, e10]

theorem warnNpdmMissing_eq :
    warnNpdmMissing =
      "[WARNING] NCA Header ACID Signature: FAIL (\"main.npdm\" not present in ExeFs)\n" := by
  decide

/-! ## C8: the decision table of signature 2 -/

/-- C8: when the content type is not Program, `validateNcaSignatures` invokes no collaborator
and prints none of the four ACID warnings.  When it is Program, it prints "No ExeFs
partition" exactly when the format of partition 0 is not PartitionFs; "ExeFs unreadable"
exactly when it is PartitionFs with a null reader; "main.npdm not present in ExeFs" exactly
when, partition 0 being a PartitionFs with a reader that the PFS collaborator, run on that
reader with minimal output, opened, the listing has no entry named "main.npdm"; and the plain
ACID failure warning exactly when the listing has such an entry, the NPDM collaborator, run
on that reader at the offset and size of the first such entry with minimal output, parsed
it, and the RSA-PSS check of `signature_acid` over the header hash with the ACID key returns
non-zero. -/
theorem signature2_decision_table (lib : Collaborators) (self : State) :
    (self.mHdr.contentType ≠ nx.nca.TYPE_PROGRAM →
      (∀ name lines,
        OutputItem.collaborator name lines ∉ (validateNcaSignatures lib self).output) ∧
      OutputItem.printf "[WARNING] NCA Header ACID Signature: FAIL \n" ∉
        (validateNcaSignatures lib self).output ∧
      OutputItem.printf
          "[WARNING] NCA Header ACID Signature: FAIL (\"main.npdm\" not present in ExeFs)\n" ∉
        (validateNcaSignatures lib self).output ∧
      OutputItem.printf "[WARNING] NCA Header ACID Signature: FAIL (ExeFs unreadable)\n" ∉
        (validateNcaSignatures lib self).output ∧
      OutputItem.printf "[WARNING] NCA Header ACID Signature: FAIL (No ExeFs partition)\n" ∉
        (validateNcaSignatures lib self).output) ∧
    (self.mHdr.contentType = nx.nca.TYPE_PROGRAM →
      (OutputItem.printf "[WARNING] NCA Header ACID Signature: FAIL (No ExeFs partition)\n" ∈
          (validateNcaSignatures lib self).output ↔
        (self.mPartitions 0).format_type ≠ nx.nca.FORMAT_PFS0) ∧
      (OutputItem.printf "[WARNING] NCA Header ACID Signature: FAIL (ExeFs unreadable)\n" ∈
          (validateNcaSignatures lib self).output ↔
        (self.mPartitions 0).format_type = nx.nca.FORMAT_PFS0 ∧
          (self.mPartitions 0).reader = none) ∧
      (OutputItem.printf
            "[WARNING] NCA Header ACID Signature: FAIL (\"main.npdm\" not present in ExeFs)\n" ∈
          (validateNcaSignatures lib self).output ↔
        (self.mPartitions 0).format_type = nx.nca.FORMAT_PFS0 ∧
          ∃ reader, (self.mPartitions 0).reader = some reader ∧
            (lib.pfsProcess
              ⟨reader, CliOutputType.OUTPUT_MINIMAL, false, none, none⟩).exception = none ∧
            ∀ f ∈ (lib.pfsProcess
                ⟨reader, CliOutputType.OUTPUT_MINIMAL, false, none, none⟩).fileList,
              f.name ≠ "main.npdm") ∧
      (OutputItem.printf "[WARNING] NCA Header ACID Signature: FAIL \n" ∈
          (validateNcaSignatures lib self).output ↔
        (self.mPartitions 0).format_type = nx.nca.FORMAT_PFS0 ∧
          ∃ reader file, (self.mPartitions 0).reader = some reader ∧
            (lib.pfsProcess
              ⟨reader, CliOutputType.OUTPUT_MINIMAL, false, none, none⟩).exception = none ∧
            (lib.pfsProcess
                ⟨reader, CliOutputType.OUTPUT_MINIMAL, false, none, none⟩).fileList.find?
              (fun f => decide (f.name = "main.npdm")) = some file ∧
            (lib.npdmProcess
              ⟨reader, file.offset, file.size, CliOutputType.OUTPUT_MINIMAL⟩).exception =
                none ∧
            lib.rsaVerify
              (lib.npdmProcess
                ⟨reader, file.offset, file.size, CliOutputType.OUTPUT_MINIMAL⟩).ncaHeader2RsaKey
              self.mHdrHash self.mHdrBlock.signature_acid ≠ 0)) := by
  have h := signature2_outcomes lib self
  rw [warnNpdmMissing_eq] at h
  refine ⟨fun hc => (h.1 hc), fun hc => ?_⟩
  obtain ⟨h1, h2, h3, h4⟩ := h.2 hc
  refine ⟨h1, h2, h3, ?_⟩
  refine h4.trans ?_
  constructor
  · rintro ⟨hf, reader, file, hr, hx, hn, _, hm, hv⟩
    exact ⟨hf, reader, file, hr, hx, hn, hm, hv⟩
  · rintro ⟨hf, reader, file, hr, hx, hn, hm, hv⟩
    refine ⟨hf, reader, file, hr, hx, hn, ?_, hm, hv⟩
    have := List.find?_some hn
    simpa [kNpdmExefsPath] using this

end NcaProcess

namespace NcaProcess
open crypto.aes

/-! ## C7: signature checking and exceptions -/

/-- C7, as stated, fails: for a Program archive whose partition 0 is a readable PartitionFs
partition, an exception thrown by the PFS collaborator leaves `validateNcaSignatures`, and
`process()` ends with that exception. -/
theorem signature_check_propagates_collaborator_exception :
    (validateNcaSignatures
        (Sample.collaborators (some "PFS header corrupt") [] none 0)
        Sample.programState).outcome ≠ Outcome.returned ∧
    (process (Sample.headerLib (Sample.headerBlock Sample.fsPlainThenXts)
          (Sample.headerFor nx.nca.TYPE_PROGRAM Sample.fsPlainThenXts))
        Sample.partitionLib (Sample.collaborators (some "PFS header corrupt") [] none 0)
        Sample.programStateFresh).outcome = Outcome.threw "PFS header corrupt" := by
  decide

/-- C7 (amended): `validateNcaSignatures` returns normally exactly when no collaborator that
it calls throws: the PFS collaborator, called only for a Program archive whose partition 0
has format PartitionFs and a reader, and the NPDM collaborator, called only when in addition
the PFS collaborator returned and its listing has an entry "main.npdm".  So a signature
mismatch, a missing or unreadable PFS partition 0 and a missing "main.npdm" never end the
run, and for an archive that is not a Program, or has no PartitionFs partition 0, nothing
does.  An exception thrown by the PFS or the NPDM collaborator is not caught: it leaves
`validateNcaSignatures`, and whenever `process()` reaches the signature checks with
verification switched on it ends with the same exception. -/
theorem signature_checks_return_unless_collaborator_throws (lib : Collaborators) :
    (∀ self : State,
      ((validateNcaSignatures lib self).outcome = Outcome.returned ↔
        (∀ reader, self.mHdr.contentType = nx.nca.TYPE_PROGRAM →
          (self.mPartitions 0).format_type = nx.nca.FORMAT_PFS0 →
          (self.mPartitions 0).reader = some reader →
          (lib.pfsProcess
            ⟨reader, CliOutputType.OUTPUT_MINIMAL, false, none, none⟩).exception = none) ∧
        (∀ reader file, self.mHdr.contentType = nx.nca.TYPE_PROGRAM →
          (self.mPartitions 0).format_type = nx.nca.FORMAT_PFS0 →
          (self.mPartitions 0).reader = some reader →
          (lib.pfsProcess
            ⟨reader, CliOutputType.OUTPUT_MINIMAL, false, none, none⟩).exception = none →
          (lib.pfsProcess
              ⟨reader, CliOutputType.OUTPUT_MINIMAL, false, none, none⟩).fileList.find?
            (fun f => decide (f.name = "main.npdm")) = some file →
          (lib.npdmProcess
            ⟨reader, file.offset, file.size, CliOutputType.OUTPUT_MINIMAL⟩).exception =
              none)) ∧
      (∀ reader e, self.mHdr.contentType = nx.nca.TYPE_PROGRAM →
        (self.mPartitions 0).format_type = nx.nca.FORMAT_PFS0 →
        (self.mPartitions 0).reader = some reader →
        (lib.pfsProcess
          ⟨reader, CliOutputType.OUTPUT_MINIMAL, false, none, none⟩).exception = some e →
        (validateNcaSignatures lib self).outcome = Outcome.threw e) ∧
      (∀ reader file e, self.mHdr.contentType = nx.nca.TYPE_PROGRAM →
        (self.mPartitions 0).format_type = nx.nca.FORMAT_PFS0 →
        (self.mPartitions 0).reader = some reader →
        (lib.pfsProcess
          ⟨reader, CliOutputType.OUTPUT_MINIMAL, false, none, none⟩).exception = none →
        (lib.pfsProcess
            ⟨reader, CliOutputType.OUTPUT_MINIMAL, false, none, none⟩).fileList.find?
          (fun f => decide (f.name = "main.npdm")) = some file →
        (lib.npdmProcess
          ⟨reader, file.offset, file.size, CliOutputType.OUTPUT_MINIMAL⟩).exception =
            some e →
        (validateNcaSignatures lib self).outcome = Outcome.threw e)) ∧
    (∀ (hlib : HeaderLib) (plib : PartitionLib) (self : State) (mReader : IFile)
        (mHdrBlock : sNcaHeaderBlock) (mHdr : nx.NcaHeader)
        (mPartitions : Fin nx.nca.kPartitionNum → sPartitionInfo) (e : String),
      self.mReader = some mReader →
      hlib.loadHeaderBlock mReader self.mKeyset.nca.header_key = Except.ok mHdrBlock →
      hlib.importBinary mHdrBlock.header = Except.ok mHdr →
      generatePartitionConfiguration plib mReader mHdr mHdrBlock.fs_header
        (generateNcaBodyEncryptionKeys mHdr self.mKeyset) self.mPartitions =
          Except.ok mPartitions →
      self.mVerify = true →
      (validateNcaSignatures lib
        { self with
          mHdrBlock := mHdrBlock
          mHdrHash := hlib.Sha256 mHdrBlock.header
          mHdr := mHdr
          mBodyKeys := generateNcaBodyEncryptionKeys mHdr self.mKeyset
          mPartitions := mPartitions }).outcome = Outcome.threw e →
      (process hlib plib lib self).outcome = Outcome.threw e) := by
  have hthrowPfs : ∀ (self : State) reader e, self.mHdr.contentType = nx.nca.TYPE_PROGRAM →
      (self.mPartitions 0).format_type = nx.nca.FORMAT_PFS0 →
      (self.mPartitions 0).reader = some reader →
      (lib.pfsProcess (exefsConfig reader)).exception = some e →
      (validateNcaSignatures lib self).outcome = Outcome.threw e := by
    intro self r e h hf hr hx
    rw [validateNcaSignatures_program lib self h]
    simp only [if_pos hf, hr, hx]
  have hthrowNpdm : ∀ (self : State) reader file e,
      self.mHdr.contentType = nx.nca.TYPE_PROGRAM →
      (self.mPartitions 0).format_type = nx.nca.FORMAT_PFS0 →
      (self.mPartitions 0).reader = some reader →
      (lib.pfsProcess (exefsConfig reader)).exception = none →
      findNpdm (lib.pfsProcess (exefsConfig reader)).fileList = some file →
      (lib.npdmProcess (npdmConfig reader file)).exception = some e →
      (validateNcaSignatures lib self).outcome = Outcome.threw e := by
    intro self r file e h hf hr hx hn hm
    rw [validateNcaSignatures_program lib self h]
    simp only [if_pos hf, hr, hx, hn, hm]
  refine ⟨fun self => ⟨⟨?_, ?_⟩, hthrowPfs self, hthrowNpdm self⟩, ?_⟩
  · intro hret
    refine ⟨?_, ?_⟩
    · intro r h hf hr
      cases hx : (lib.pfsProcess (exefsConfig r)).exception with
      | none => exact hx
      | some e =>
        rw [hthrowPfs self r e h hf hr hx] at hret
        cases hret
    · intro r file h hf hr hx hn
      cases hm : (lib.npdmProcess (npdmConfig r file)).exception with
      | none => exact hm
      | some e =>
        rw [hthrowNpdm self r file e h hf hr hx hn hm] at hret
        cases hret
  · rintro ⟨hpfs, hnpdm⟩
    by_cases h : self.mHdr.contentType = nx.nca.TYPE_PROGRAM
    · rw [validateNcaSignatures_program lib self h]
      simp only []
      by_cases hf : (self.mPartitions nx.nca.PARTITION_CODE).format_type = nx.nca.FORMAT_PFS0
      · rw [if_pos hf]
        cases hr : (self.mPartitions nx.nca.PARTITION_CODE).reader with
        | none => rfl
        | some r =>
          have hx : (lib.pfsProcess (exefsConfig r)).exception = none := hpfs r h hf hr
          simp only [hx]
          cases hn : findNpdm (lib.pfsProcess (exefsConfig r)).fileList with
          | none => rfl
          | some file =>
            have hm : (lib.npdmProcess (npdmConfig r file)).exception = none :=
              hnpdm r file h hf hr hx hn
            simp only [hm]
            split_ifs <;> rfl
      · rw [if_neg hf]
    · rw [validateNcaSignatures_not_program lib self h]
  · intro hlib plib self mReader mHdrBlock mHdr mPartitions e hReader hLoad hImport hGen
      hVerify hThrow
    unfold process
    simp only [hReader, hLoad, hImport, hGen]
    unfold processOutputPhases
    simp only [hVerify, if_true]
    unfold Run.andThen
    rw [hReader, hVerify] at hThrow
    simp only [hThrow]

/-- Witness for `signature_checks_return_unless_collaborator_throws`: on an archive that is
not a Program the signature checks return although the PFS collaborator would throw on any
input, since it is never called; on a Program archive whose ExeFs lists "main.npdm" the
exception of the NPDM collaborator leaves `validateNcaSignatures`; and `process()` on a
Program archive ends with the exception of the PFS collaborator. -/
theorem signature_checks_return_unless_collaborator_throws_witness :
    Sample.dataState.mHdr.contentType ≠ nx.nca.TYPE_PROGRAM ∧
    (validateNcaSignatures (Sample.collaborators (some "PFS header corrupt") [] none 0)
      Sample.dataState).outcome = Outcome.returned ∧
    (validateNcaSignatures
      (Sample.collaborators none [⟨"main.npdm", 0x40, 0x400⟩] (some "NPDM corrupt") 0)
      Sample.programState).outcome = Outcome.threw "NPDM corrupt" ∧
    (process (Sample.headerLib (Sample.headerBlock Sample.fsPlainThenXts)
          (Sample.headerFor nx.nca.TYPE_PROGRAM Sample.fsPlainThenXts))
        Sample.partitionLib (Sample.collaborators (some "PFS header corrupt") [] none 0)
        Sample.programStateFresh).outcome = Outcome.threw "PFS header corrupt" :=
  ⟨by decide,
    (((signature_checks_return_unless_collaborator_throws
      (Sample.collaborators (some "PFS header corrupt") [] none 0)).1 Sample.dataState).1).2
      ⟨fun _ h => absurd h (by decide), fun _ _ h => absurd h (by decide)⟩,
    ((signature_checks_return_unless_collaborator_throws
      (Sample.collaborators none [⟨"main.npdm", 0x40, 0x400⟩] (some "NPDM corrupt") 0)).1
      Sample.programState).2.2 (IFile.OffsetAdjustedIFile Sample.archive 0xc00 0x200)
      ⟨"main.npdm", 0x40, 0x400⟩ "NPDM corrupt" (by decide) (by decide) (by decide) rfl
      (by decide) rfl,
    (signature_checks_return_unless_collaborator_throws
      (Sample.collaborators (some "PFS header corrupt") [] none 0)).2
      (Sample.headerLib (Sample.headerBlock Sample.fsPlainThenXts)
        (Sample.headerFor nx.nca.TYPE_PROGRAM Sample.fsPlainThenXts))
      Sample.partitionLib Sample.programStateFresh Sample.archive
      (Sample.headerBlock Sample.fsPlainThenXts)
      (Sample.headerFor nx.nca.TYPE_PROGRAM Sample.fsPlainThenXts)
      (fun i => (slotAfter (generatePartitionConfiguration Sample.partitionLib Sample.archive
        (Sample.headerFor nx.nca.TYPE_PROGRAM Sample.fsPlainThenXts) Sample.fsPlainThenXts
        (generateNcaBodyEncryptionKeys
          (Sample.headerFor nx.nca.TYPE_PROGRAM Sample.fsPlainThenXts)
          Sample.programStateFresh.mKeyset) Sample.mPartitions0) i).getD sPartitionInfo.init)
      "PFS header corrupt" rfl rfl rfl rfl rfl (by decide)⟩

end NcaProcess

namespace NcaProcess
open crypto.aes

/-! ## C4: archive-level fatal errors -/

/-- C4: when the header was read and parsed, and for some listed partition the SHA-256 of
its fs-header slot differs from the hash stored in the partition table or its fs-header
version differs from `kDefaultFsHeaderVersion`, then `generatePartitionConfiguration` throws
and `process()` ends with that exception having printed nothing: signature validation,
header display and partition processing are not reached. -/
theorem fatal_fs_header_errors (hlib : HeaderLib) (plib : PartitionLib) (lib : Collaborators)
    (self : State) (mReader : IFile) (mHdrBlock : sNcaHeaderBlock) (mHdr : nx.NcaHeader)
    (hReader : self.mReader = some mReader)
    (hLoad : hlib.loadHeaderBlock mReader self.mKeyset.nca.header_key = Except.ok mHdrBlock)
    (hImport : hlib.importBinary mHdrBlock.header = Except.ok mHdr)
    (hBad : ∃ p ∈ mHdr.getPartitions,
      plib.Sha256 (mHdrBlock.fs_header p.index) ≠ p.hash ∨
        (mHdrBlock.fs_header p.index).version ≠ nx.nca.kDefaultFsHeaderVersion) :
    ∃ e, generatePartitionConfiguration plib mReader mHdr mHdrBlock.fs_header
        (generateNcaBodyEncryptionKeys mHdr self.mKeyset) self.mPartitions = Except.error e ∧
      process hlib plib lib self = ⟨[], Outcome.threw e⟩ := by
  obtain ⟨e, he⟩ := generatePartitionConfiguration_error plib mReader mHdr mHdrBlock.fs_header
    (generateNcaBodyEncryptionKeys mHdr self.mKeyset) self.mPartitions hBad
  refine ⟨e, he, ?_⟩
  unfold process
  simp only [hReader, hLoad, hImport, he]

/-- Witness for `fatal_fs_header_errors`: the stored digest of partition 1 does not match
its fs header. -/
theorem fatal_fs_header_errors_witness :
    (∃ p ∈ Sample.headerBadHash.getPartitions,
      Sample.partitionLib.Sha256 ((Sample.headerBlock Sample.fsPlainThenXts).fs_header p.index)
          ≠ p.hash ∨
        ((Sample.headerBlock Sample.fsPlainThenXts).fs_header p.index).version ≠
          nx.nca.kDefaultFsHeaderVersion) ∧
    ∃ e, process (Sample.headerLib (Sample.headerBlock Sample.fsPlainThenXts)
          Sample.headerBadHash) Sample.partitionLib (Sample.collaborators none [] none 0)
        Sample.programStateFresh = ⟨[], Outcome.threw e⟩ :=
  ⟨by decide,
    (fatal_fs_header_errors (Sample.headerLib (Sample.headerBlock Sample.fsPlainThenXts)
        Sample.headerBadHash) Sample.partitionLib (Sample.collaborators none [] none 0)
      Sample.programStateFresh Sample.archive (Sample.headerBlock Sample.fsPlainThenXts)
      Sample.headerBadHash rfl rfl rfl (by decide)).imp (fun _ h => h.2)⟩

/-- On the same archive with matching digests `process()` does print: there the header
display and the partition phase are reached. -/
theorem process_prints_when_fs_headers_valid :
    (process (Sample.headerLib (Sample.headerBlock Sample.fsPlainThenXts)
        (Sample.headerFor 4 Sample.fsPlainThenXts)) Sample.partitionLib
      (Sample.collaborators none [] none 0) Sample.programStateFresh).outcome =
        Outcome.returned ∧
    OutputItem.printf "[NCA Header]\n" ∈
      (process (Sample.headerLib (Sample.headerBlock Sample.fsPlainThenXts)
        (Sample.headerFor 4 Sample.fsPlainThenXts)) Sample.partitionLib
      (Sample.collaborators none [] none 0) Sample.programStateFresh).output := by
  decide

end NcaProcess

namespace NcaProcess
open crypto.aes

/-! ## Header display: table reads and partition slots -/

theorem readAt_error_iff {α : Type} (name : String) (table : List α) (i : Nat) :
    readAt name table i = Except.error name ↔ table.length ≤ i := by
  unfold readAt
  by_cases h : i < table.length
  · rw [List.getElem?_eq_getElem h]
    constructor
    · intro hc
      cases hc
    · intro hc
      omega
  · rw [List.getElem?_eq_none (Nat.le_of_not_lt h)]
    constructor
    · intro _
      omega
    · intro _
      rfl

theorem displayPartition_eq (lib : Collaborators) (self : State) (i : Nat)
    (h : i < nx.nca.kPartitionNum) :
    displayPartition lib self i = displayPartitionInfo lib i (self.mPartitions ⟨i, h⟩) := by
  have hr : readAt "mPartitions" (List.ofFn self.mPartitions) i =
      Except.ok (self.mPartitions ⟨i, h⟩) := by
    unfold readAt
    rw [List.getElem?_ofFn]
    simp [List.ofFnNthVal, h]
  unfold displayPartition displayPartitionInfo
  rw [hr]
  rfl

end NcaProcess

namespace NcaProcess
open crypto.aes

/-! ## C11: string-table reads -/

/-- C11 fails on the code.  First input: an archive whose partition 0 has the unknown
format type 5; `generatePartitionConfiguration` returns normally and records the type with a
null reader, and `displayHeader` then reads `kFormatTypeStr[5]` in a table of 2 entries.
Second input: a Program archive with four plain PartitionFs partitions; the header is
displayed, and `processPartitions` reads `kProgramPartitionNameStr[3]` in a table of 3
entries for the partition at list position 3. -/
theorem table_reads_out_of_bounds :
    ((slotAfter (generatePartitionConfiguration Sample.partitionLib Sample.archive
          (Sample.headerFor 4 Sample.fsUnknownThenXts) Sample.fsUnknownThenXts sKeys.init
          Sample.mPartitions0) 0).map (fun info => (info.format_type, info.reader)) =
        some (5, none) ∧
      kFormatTypeStr.length = 2 ∧
      (process (Sample.headerLib (Sample.headerBlock Sample.fsUnknownThenXts)
          (Sample.headerFor 4 Sample.fsUnknownThenXts)) Sample.partitionLib
        (Sample.collaborators none [] none 0) Sample.programStateFresh).outcome =
          Outcome.undefined "kFormatTypeStr") ∧
    (Sample.headerFourPartitions.getPartitions.length = 4 ∧
      kProgramPartitionNameStr.length = 3 ∧
      (process (Sample.headerLib (Sample.headerBlock Sample.fsAllPlain)
          Sample.headerFourPartitions) Sample.partitionLib
        (Sample.collaborators none [] none 0) Sample.programStateFresh).outcome =
          Outcome.undefined "kProgramPartitionNameStr" ∧
      OutputItem.printf "[NCA Header]\n" ∈
        (process (Sample.headerLib (Sample.headerBlock Sample.fsAllPlain)
          Sample.headerFourPartitions) Sample.partitionLib
        (Sample.collaborators none [] none 0) Sample.programStateFresh).output) := by
  decide

end NcaProcess

namespace NcaProcess
open crypto.aes

/-- Every format type that `generatePartitionConfiguration` records as unknown is outside
`kFormatTypeStr`: displaying such a record reads the table out of bounds. -/
theorem displayPartitionInfo_unknown_format (lib : Collaborators) (i : Nat)
    (info : sPartitionInfo)
    (h : ¬ (info.format_type = nx.nca.FORMAT_PFS0 ∨ info.format_type = nx.nca.FORMAT_ROMFS)) :
    displayPartitionInfo lib i info = Except.error "kFormatTypeStr" := by
  have hlen : kFormatTypeStr.length ≤ info.format_type := by
    have h2 : kFormatTypeStr.length = 2 := rfl
    rw [h2]
    by_contra hc
    apply h
    have : info.format_type = 0 ∨ info.format_type = 1 := by omega
    rcases this with h0 | h1
    · exact Or.inr h0
    · exact Or.inl h1
  unfold displayPartitionInfo
  rw [(readAt_error_iff "kFormatTypeStr" kFormatTypeStr info.format_type).2 hlen]
  rfl

/-! ## C12: the slot that the display reads -/

/-- C12 fails on the code: for a header that lists slot 1 (at 0xe00) and slot 2 (at 0x1000)
only, `generatePartitionConfiguration` stores the entry at list position 1 in slot 2, and
`displayHeader` shows for list position 1 the contents of slot 1, that is the offset 0xe00 of
the entry at list position 0; `processPartitions` reads slot 2 for the same entry. -/
theorem display_reads_slot_of_list_position :
    Sample.headerSlots12.getPartitions.map (fun p => (p.index.val, p.offset)) =
      [(1, 0xe00), (2, 0x1000)] ∧
    (configured Sample.partitionLib
        (Sample.state Sample.headerSlots12 Sample.fsAllPlain Sample.mPartitions0)
        Sample.archive).map
      (fun st => Sample.headerSlots12.getPartitions.map
        (fun p => (storedInfo st p).offset)) = some [0xe00, 0x1000] ∧
    (configured Sample.partitionLib
        (Sample.state Sample.headerSlots12 Sample.fsAllPlain Sample.mPartitions0)
        Sample.archive).map
      (fun st => (List.range Sample.headerSlots12.getPartitions.length).map
        (fun i => (displayedInfo st i).map (fun info => info.offset))) =
      some [some 0, some 0xe00] ∧
    (configured Sample.partitionLib
        (Sample.state Sample.headerSlots12 Sample.fsAllPlain Sample.mPartitions0)
        Sample.archive).map
      (fun st => (displayPartition (Sample.collaborators none [] none 0) st 1).toOption) =
      some (some [OutputItem.printf "    1:\n",
        OutputItem.printf "      Offset:      0xe00\n",
        OutputItem.printf "      Size:        0x200\n",
        OutputItem.printf "      Format Type: PartitionFs\n",
        OutputItem.printf "      Hash Type:   None\n",
        OutputItem.printf "      Enc. Type:   None\n"]) := by
  decide

end NcaProcess
